import Mathlib

/-!
Shallow embedding of the GSUB table decoder of `src/src/tables/gsub.js`
(opentype.js).  The decoder reads a byte buffer through a cursor (the
`Parser` object of the host library) and returns a nested record of decoded
lookup subtables, or throws on malformed input.

The host cursor primitives (`parse.js`) and the `check` module are not part
of the source tree here; the specification describes their contract
(section 4.1 of the design document), so those definitions are modelled
from the spec and marked as such in their doc comments.  Everything in
`gsub.js` itself is translated directly from the source.

Conventions of the embedding:
* bytes are natural numbers (a well-formed buffer has entries below 256);
* the cursor state is `(data, offset, relativeOffset)` exactly as in the
  source: `offset` is the base of the current structure and never changes
  within one parser object, `relativeOffset` advances with each read;
* a decode step yields `ok value newState`, `err e` (a thrown exception),
  or `diverge` (the fuel of the embedding ran out; the only fuel consumer
  is the type 7 extension indirection, which in the source is genuine
  recursion through the dispatch array).
-/

namespace OTGsub

/-- Cursor state of the host `Parser` object: the byte buffer, the base
offset of the structure being decoded, and the relative read position. -/
structure PState where
  data : List Nat
  off : Nat
  rel : Nat
deriving DecidableEq

/-- Errors a decode can throw.  `assertFail` is a failure of
`check.argument` / `check.assert` (both throw an `Error` carrying the given
message); `truncated` is a read past the end of the buffer (the
TruncatedInput case delegated to the primitive decoder); `rangeError` is
the invalid-array-length failure of allocating a list with negative count;
`typeError` is the failure of invoking a missing entry of the
`subtableParsers` dispatch array (JavaScript: calling `undefined`);
`unknownLookupType` is the structured error of the external lookup
directory decoder for a type outside 1..8 (modelled from the spec error
taxonomy). -/
inductive PErr where
  | assertFail (msg : String)
  | truncated
  | rangeError
  | typeError
  | unknownLookupType (t : Nat)
deriving DecidableEq

/-- Result of running one decode step from a cursor state. -/
inductive PRes (α : Type) where
  | ok : α → PState → PRes α
  | err : PErr → PRes α
  | diverge : PRes α
deriving DecidableEq

/-- A decode step: state in, result out. -/
def PM (α : Type) : Type := PState → PRes α

def PM.pure (a : α) : PM α := fun st => .ok a st

def PM.bind (m : PM α) (f : α → PM β) : PM β := fun st =>
  match m st with
  | .ok a st1 => f a st1
  | .err e => .err e
  | .diverge => .diverge

instance : Monad PM where
  pure := PM.pure
  bind := PM.bind

@[simp] theorem run_pure (a : α) (st : PState) :
    (Pure.pure a : PM α) st = .ok a st := rfl

@[simp] theorem run_pure' (a : α) (st : PState) :
    PM.pure a st = .ok a st := rfl

@[simp] theorem run_bind (m : PM α) (f : α → PM β) (st : PState) :
    (m >>= f) st =
      match m st with
      | .ok a st1 => f a st1
      | .err e => .err e
      | .diverge => .diverge := rfl

/-- Throwing a decode error. -/
def PM.fail (e : PErr) : PM α := fun _ => .err e

@[simp] theorem run_fail (e : PErr) (st : PState) :
    (PM.fail e : PM α) st = .err e := rfl

/-- Pure view of a big-endian 16-bit read at an absolute buffer index. -/
def u16At (d : List Nat) (i : Nat) : Option Nat :=
  match d.get? i, d.get? (i + 1) with
  | some b0, some b1 => some (256 * b0 + b1)
  | _, _ => none

/-- Pure view of a big-endian 32-bit read at an absolute buffer index. -/
def u32At (d : List Nat) (i : Nat) : Option Nat :=
  match u16At d i, u16At d (i + 2) with
  | some h, some l => some (65536 * h + l)
  | _, _ => none

/-- Modelled from the spec: the primitive decoder read of a fixed-width
unsigned 16-bit integer (`Parser.prototype.parseUShort` of the absent
`parse.js`), big-endian at `offset + relativeOffset`, advancing the cursor
by two; a read past the buffer is the TruncatedInput failure. -/
def parseUShort : PM Nat := fun st =>
  match u16At st.data (st.off + st.rel) with
  | some v => .ok v ⟨st.data, st.off, st.rel + 2⟩
  | none => .err .truncated

/-- Modelled from the spec: signed 16-bit read (`parseShort`), the same two
bytes as `parseUShort` interpreted in two-complement. -/
def parseShort : PM Int := fun st =>
  match u16At st.data (st.off + st.rel) with
  | some v => .ok (if v < 32768 then (v : Int) else (v : Int) - 65536) ⟨st.data, st.off, st.rel + 2⟩
  | none => .err .truncated

/-- Modelled from the spec: unsigned 32-bit read (`parseULong`), advancing
the cursor by four. -/
def parseULong : PM Nat := fun st =>
  match u32At st.data (st.off + st.rel) with
  | some v => .ok v ⟨st.data, st.off, st.rel + 4⟩
  | none => .err .truncated

/-- Modelled from the spec: `parseVersion` reads the 32-bit table version
field.  The embedding returns the raw wire word; the single supported
version (the value the source compares against `1`) has wire encoding
`0x00010000`, named below. -/
def parseVersion : PM Nat := parseULong

/-- Wire encoding of the one supported table version. -/
def supportedVersionWire : Nat := 65536

/-- Modelled from the spec: the `check.argument` / `check.assert` helpers
of the absent `check.js`: when the condition fails they throw an `Error`
carrying the message, aborting the decode. -/
def checkArgument (b : Bool) (msg : String) : PM Unit := fun st =>
  if b then .ok () st else .err (.assertFail msg)

@[simp] theorem run_checkArgument (b : Bool) (msg : String) (st : PState) :
    checkArgument b msg st = if b then .ok () st else .err (.assertFail msg) := rfl

/-! ## Decoded value types

One constructor per object shape built by `gsub.js`; field names follow the
source object literals. -/

/-- A coverage range record `(start, end, index)` of coverage format 2. -/
structure CoverageRange where
  startId : Nat
  endId : Nat
  index : Nat
deriving DecidableEq

/-- Decoded coverage table (section 4.2 of the spec: two encodings). -/
inductive Coverage where
  | fmt1 (glyphs : List Nat)
  | fmt2 (ranges : List CoverageRange)
deriving DecidableEq

/-- A class range record `(start, end, classId)` of class-definition
format 2. -/
structure ClassRange where
  startId : Nat
  endId : Nat
  classId : Nat
deriving DecidableEq

/-- Decoded class-definition table (two encodings). -/
inductive ClassDef where
  | fmt1 (startGlyph : Nat) (classes : List Nat)
  | fmt2 (ranges : List ClassRange)
deriving DecidableEq

/-- The `lookupRecordDesc` record of `gsub.js`: two 16-bit fields. -/
structure LookupRecord where
  sequenceIndex : Nat
  lookupListIndex : Nat
deriving DecidableEq

/-- A ligature rule of lookup type 4: the resulting glyph plus the tail of
component glyphs. -/
structure LigatureRule where
  ligGlyph : Nat
  components : List Nat
deriving DecidableEq

/-- A contextual rule of lookup type 5 format 1. -/
structure Rule5 where
  input : List Nat
  lookupRecords : List LookupRecord
deriving DecidableEq

/-- A class-based contextual rule of lookup type 5 format 2. -/
structure ClassRule5 where
  classes : List Nat
  lookupRecords : List LookupRecord
deriving DecidableEq

/-- A chaining contextual rule of lookup type 6 formats 1 and 2 (the two
inline decoders in the source are identical). -/
structure ChainRule where
  backtrack : List Nat
  input : List Nat
  lookahead : List Nat
  lookupRecords : List LookupRecord
deriving DecidableEq

/-- Decoded subtable: one constructor per object shape returned by the
eight entries of `subtableParsers`.  The `substFormat` field of the source
objects is implied by the constructor (the source always stores the
validated constant). -/
inductive Subtable where
  | lk1f1 (coverage : Option Coverage) (deltaGlyphId : Nat)
  | lk1f2 (coverage : Option Coverage) (substitute : List Nat)
  | lk2 (coverage : Option Coverage) (sequences : List (List Nat))
  | lk3 (coverage : Option Coverage) (alternateSets : List (List Nat))
  | lk4 (coverage : Option Coverage) (ligatureSets : List (List LigatureRule))
  | lk5f1 (coverage : Option Coverage) (ruleSets : List (List Rule5))
  | lk5f2 (coverage : Option Coverage) (classDef : Option ClassDef)
      (classSets : List (List ClassRule5))
  | lk5f3 (coverages : List (Option Coverage)) (lookupRecords : List LookupRecord)
  | lk6f1 (coverage : Option Coverage) (chainRuleSets : List (List ChainRule))
  | lk6f2 (coverage : Option Coverage) (backtrackClassDef : Option ClassDef)
      (inputClassDef : Option ClassDef) (lookaheadClassDef : Option ClassDef)
      (chainClassSet : List (List ChainRule))
  | lk6f3 (backtrackCoverage : List (Option Coverage))
      (inputCoverage : List (Option Coverage))
      (lookaheadCoverage : List (Option Coverage))
      (lookupRecords : List LookupRecord)
  | lk7 (lookupType : Nat) (extension : Subtable)
  | lk8 (coverage : Option Coverage) (backtrackCoverage : List (Option Coverage))
      (lookaheadCoverage : List (Option Coverage)) (substitutes : List Nat)
deriving DecidableEq

/-- One entry of the decoded lookup directory: the entry type tag and its
decoded subtable. -/
structure LookupEntry where
  lookupType : Nat
  subtable : Subtable
deriving DecidableEq

/-- The decoded root table.  The script and feature directories are decoded
by externally supplied routines (out of scope per the spec), so their value
types are parameters. -/
structure GsubTable (σ φ : Type) where
  version : Nat
  scripts : σ
  features : φ
  lookups : List LookupEntry
deriving DecidableEq

/-! ## Composite reads of the primitive decoder (modelled from the spec) -/

/-- Read `n` items in sequence with the given item decoder. -/
def parseItems (item : PM α) : Nat → PM (List α)
  | 0 => PM.pure []
  | n + 1 => do
      let x ← item
      let xs ← parseItems item n
      PM.pure (x :: xs)

@[simp] theorem parseItems_zero (item : PM α) :
    parseItems item 0 = PM.pure [] := rfl

@[simp] theorem parseItems_succ (item : PM α) (n : Nat) :
    parseItems item (n + 1) =
      (do
        let x ← item
        let xs ← parseItems item n
        PM.pure (x :: xs)) := rfl

/-- Modelled from the spec: `parseUShortList(count)` with an explicit count
argument.  The count the source passes can be a negative JavaScript number
(`glyphCount - 1` with `glyphCount = 0`, or a sign-extended `parseShort`
value); allocating an array of negative length throws a range error. -/
def parseUShortListN (count : Int) : PM (List Nat) :=
  if count < 0 then PM.fail .rangeError
  else parseItems parseUShort count.toNat

/-- Modelled from the spec: `parseUShortList()` without a count — the
composite read "a 16-bit count, then that many 16-bit items". -/
def parseUShortListAuto : PM (List Nat) := do
  let n ← parseUShort
  parseItems parseUShort n

/-- Modelled from the spec: `parseOffset16List()`, the same composite read
as the count-prefixed 16-bit list. -/
def parseOffset16List : PM (List Nat) := parseUShortListAuto

/-- Modelled from the spec: `parseList(count, itemCallback)` — read `count`
items with the supplied item decoder. -/
def parseListN (count : Nat) (item : PM α) : PM (List α) :=
  parseItems item count

/-- Modelled from the spec: `parseList(itemCallback)` — count-prefixed
variant of the generic list read. -/
def parseListAuto (item : PM α) : PM (List α) := do
  let n ← parseUShort
  parseItems item n

/-- Decoder of one `lookupRecordDesc` record: two 16-bit fields in
declaration order. -/
def parseLookupRecord : PM LookupRecord := do
  let s ← parseUShort
  let l ← parseUShort
  PM.pure ⟨s, l⟩

/-- Modelled from the spec: `parseRecordList(count, description)` with the
explicit count. -/
def parseLookupRecordListN (count : Nat) : PM (List LookupRecord) :=
  parseItems parseLookupRecord count

/-- Modelled from the spec: `parseRecordList(description)` — count-prefixed
record list. -/
def parseLookupRecordListAuto : PM (List LookupRecord) := do
  let n ← parseUShort
  parseItems parseLookupRecord n

/-- Run a sub-decoder on a fresh parser based at `offset + o`, returning
its value; the outer cursor stays put, the inner final cursor is
discarded. -/
def pointerArm (desc : PM α) (o : Nat) : PM (Option α) := fun st =>
  match desc ⟨st.data, st.off + o, 0⟩ with
  | .ok v _ => .ok (some v) st
  | .err e => .err e
  | .diverge => .diverge

/-- Modelled from the spec: `parsePointer(description)` — read a 16-bit
offset; when nonzero, run the sub-decoder on a fresh parser based at
`offset + storedOffset` (the base is the current structure, the spec
null-offset-as-absence convention maps offset zero to an absent value). -/
def parsePointer (desc : PM α) : PM (Option α) := do
  let o ← parseUShort
  if 0 < o then pointerArm desc o else PM.pure none

/-- One row of a list-of-lists: at the row base, a count-prefixed list of
items decoded by the supplied callback. -/
def parseLolRow (item : PM α) : PM (List α) := do
  let n ← parseUShort
  parseItems item n

/-- Run the rows of a list-of-lists at their resolved bases; the outer
cursor is left where the offset list ended. -/
def parseLolRows (item : PM α) (base : Nat) : List Nat → PM (List (List α))
  | [] => PM.pure []
  | o :: os => fun st =>
      match parseLolRow item ⟨st.data, base + o, 0⟩ with
      | .ok row _ =>
          match parseLolRows item base os st with
          | .ok rows st2 => .ok (row :: rows) st2
          | .err e => .err e
          | .diverge => .diverge
      | .err e => .err e
      | .diverge => .diverge

/-- Modelled from the spec: `parseListOfLists(itemCallback)` — read a
16-bit count, then that many 16-bit offsets, then for each offset resolved
relative to the start of this list structure decode one count-prefixed item
list there. -/
def parseListOfLists (item : PM α) : PM (List (List α)) := fun st =>
  let base := st.off + st.rel
  match parseOffset16List st with
  | .ok offsets st1 => parseLolRows item base offsets st1
  | .err e => .err e
  | .diverge => .diverge

/-- Modelled from the spec: `parseListOfLists()` without a callback — the
inner items default to 16-bit reads. -/
def parseListOfListsU16 : PM (List (List Nat)) := parseListOfLists parseUShort

/-! ## Shared structure decoders (modelled from the spec, section 4.2) -/

/-- Modelled from the spec: the coverage table decoder (`Parser.coverage`
of the absent `parse.js`): format 1 is a count-prefixed glyph list, format
2 a count-prefixed list of `(start, end, index)` ranges, any other format
is a parse error. -/
def parseCoverage : PM Coverage := do
  let fmt ← parseUShort
  if fmt = 1 then
    let glyphs ← parseUShortListAuto
    PM.pure (Coverage.fmt1 glyphs)
  else if fmt = 2 then
    let n ← parseUShort
    let ranges ← parseItems
      (do
        let s ← parseUShort
        let e ← parseUShort
        let i ← parseUShort
        PM.pure (CoverageRange.mk s e i)) n
    PM.pure (Coverage.fmt2 ranges)
  else PM.fail (.assertFail "unsupported coverage table format")

/-- Modelled from the spec: the class-definition decoder
(`Parser.classDef`): format 1 is a start glyph plus a count-prefixed class
list, format 2 a count-prefixed list of `(start, end, classId)` ranges,
any other format is a parse error. -/
def parseClassDef : PM ClassDef := do
  let fmt ← parseUShort
  if fmt = 1 then
    let startGlyph ← parseUShort
    let classes ← parseUShortListAuto
    PM.pure (ClassDef.fmt1 startGlyph classes)
  else if fmt = 2 then
    let n ← parseUShort
    let ranges ← parseItems
      (do
        let s ← parseUShort
        let e ← parseUShort
        let c ← parseUShort
        PM.pure (ClassRange.mk s e c)) n
    PM.pure (ClassDef.fmt2 ranges)
  else PM.fail (.assertFail "unsupported class definition table format")

/-! ## The eight subtable decoders of `gsub.js`

Each definition is a direct translation of the corresponding
`subtableParsers[k]` function; the error message strings are verbatim from
the source. -/

/-- Hexadecimal rendering of a nonnegative number, as JavaScript
`Number.prototype.toString(16)` produces it (lowercase, no padding). -/
def natToHex (n : Nat) : String := String.mk (Nat.toDigits 16 n)

/-- Body of `parseLookup1` with the captured `start` value (the source
computes `var start = this.offset + this.relativeOffset` on entry and uses
it only in the failure message). -/
def parseLookup1At (start : Nat) : PM Subtable := do
  let substFormat ← parseUShort
  if substFormat = 1 then
    let coverage ← parsePointer parseCoverage
    let deltaGlyphId ← parseUShort
    PM.pure (Subtable.lk1f1 coverage deltaGlyphId)
  else if substFormat = 2 then
    let coverage ← parsePointer parseCoverage
    let substitute ← parseOffset16List
    PM.pure (Subtable.lk1f2 coverage substitute)
  else
    PM.fail (.assertFail
      ("0x" ++ natToHex start ++ ": lookup type 1 format must be 1 or 2."))

/-- Translation of `parseLookup1` (gsub.js lines 11 to 28): single
substitution, formats 1 and 2; any other format throws with a message
carrying the hex offset of the discriminant. -/
def parseLookup1 : PM Subtable := fun st =>
  parseLookup1At (st.off + st.rel) st

/-- Translation of `parseLookup2` (gsub.js lines 31 to 39): multiple
substitution, format 1 only; the failure message carries no offset. -/
def parseLookup2 : PM Subtable := do
  let substFormat ← parseUShort
  checkArgument (substFormat == 1)
    "GSUB Multiple Substitution Subtable identifier-format must be 1"
  let coverage ← parsePointer parseCoverage
  let sequences ← parseListOfListsU16
  PM.pure (Subtable.lk2 coverage sequences)

/-- Translation of `parseLookup3` (gsub.js lines 42 to 50): alternate
substitution, format 1 only. -/
def parseLookup3 : PM Subtable := do
  let substFormat ← parseUShort
  checkArgument (substFormat == 1)
    "GSUB Alternate Substitution Subtable identifier-format must be 1"
  let coverage ← parsePointer parseCoverage
  let alternateSets ← parseListOfListsU16
  PM.pure (Subtable.lk3 coverage alternateSets)

/-- Translation of the inline ligature decoder of `parseLookup4` (gsub.js
lines 59 to 64): the resulting glyph, then the glyph count, then
`glyphCount - 1` component glyphs. -/
def parseLigatureRule : PM LigatureRule := do
  let ligGlyph ← parseUShort
  let glyphCount ← parseUShort
  let components ← parseUShortListN ((glyphCount : Int) - 1)
  PM.pure ⟨ligGlyph, components⟩

/-- Translation of `parseLookup4` (gsub.js lines 53 to 66): ligature
substitution, format 1 only. -/
def parseLookup4 : PM Subtable := do
  let substFormat ← parseUShort
  checkArgument (substFormat == 1)
    "GSUB ligature table identifier-format must be 1"
  let coverage ← parsePointer parseCoverage
  let ligatureSets ← parseListOfLists parseLigatureRule
  PM.pure (Subtable.lk4 coverage ligatureSets)

/-- Translation of the inline rule decoder of `parseLookup5` format 1
(gsub.js lines 82 to 89). -/
def parseRule5 : PM Rule5 := do
  let glyphCount ← parseUShort
  let substCount ← parseUShort
  let input ← parseUShortListN ((glyphCount : Int) - 1)
  let lookupRecords ← parseLookupRecordListN substCount
  PM.pure ⟨input, lookupRecords⟩

/-- Translation of the inline rule decoder of `parseLookup5` format 2
(gsub.js lines 96 to 103). -/
def parseClassRule5 : PM ClassRule5 := do
  let glyphCount ← parseUShort
  let substCount ← parseUShort
  let classes ← parseUShortListN ((glyphCount : Int) - 1)
  let lookupRecords ← parseLookupRecordListN substCount
  PM.pure ⟨classes, lookupRecords⟩

/-- Body of `parseLookup5` with the captured `start` value. -/
def parseLookup5At (start : Nat) : PM Subtable := do
    let substFormat ← parseUShort
    if substFormat = 1 then
      let coverage ← parsePointer parseCoverage
      let ruleSets ← parseListOfLists parseRule5
      PM.pure (Subtable.lk5f1 coverage ruleSets)
    else if substFormat = 2 then
      let coverage ← parsePointer parseCoverage
      let classDef ← parsePointer parseClassDef
      let classSets ← parseListOfLists parseClassRule5
      PM.pure (Subtable.lk5f2 coverage classDef classSets)
    else if substFormat = 3 then
      let glyphCount ← parseUShort
      let substCount ← parseUShort
      let coverages ← parseListN glyphCount (parsePointer parseCoverage)
      let lookupRecords ← parseLookupRecordListN substCount
      PM.pure (Subtable.lk5f3 coverages lookupRecords)
    else
      PM.fail (.assertFail
        ("0x" ++ natToHex start ++ ": lookup type 5 format must be 1, 2 or 3."))

/-- Translation of `parseLookup5` (gsub.js lines 74 to 115): contextual
substitution, formats 1, 2 and 3; any other format throws with a message
carrying the hex offset of the discriminant. -/
def parseLookup5 : PM Subtable := fun st =>
  parseLookup5At (st.off + st.rel) st

/-- Translation of the inline chain-rule decoder of `parseLookup6` formats
1 and 2 (gsub.js lines 126 to 132 and 142 to 148, which are identical):
note the input count is read with the signed 16-bit read. -/
def parseChainRule : PM ChainRule := do
  let backtrack ← parseUShortListAuto
  let inputCount ← parseShort
  let input ← parseUShortListN (inputCount - 1)
  let lookahead ← parseUShortListAuto
  let lookupRecords ← parseLookupRecordListAuto
  PM.pure ⟨backtrack, input, lookahead, lookupRecords⟩

/-- Body of `parseLookup6` with the captured `start` value. -/
def parseLookup6At (start : Nat) : PM Subtable := do
    let substFormat ← parseUShort
    if substFormat = 1 then
      let coverage ← parsePointer parseCoverage
      let chainRuleSets ← parseListOfLists parseChainRule
      PM.pure (Subtable.lk6f1 coverage chainRuleSets)
    else if substFormat = 2 then
      let coverage ← parsePointer parseCoverage
      let backtrackClassDef ← parsePointer parseClassDef
      let inputClassDef ← parsePointer parseClassDef
      let lookaheadClassDef ← parsePointer parseClassDef
      let chainClassSet ← parseListOfLists parseChainRule
      PM.pure (Subtable.lk6f2 coverage backtrackClassDef inputClassDef
        lookaheadClassDef chainClassSet)
    else if substFormat = 3 then
      let backtrackCoverage ← parseListAuto (parsePointer parseCoverage)
      let inputCoverage ← parseListAuto (parsePointer parseCoverage)
      let lookaheadCoverage ← parseListAuto (parsePointer parseCoverage)
      let lookupRecords ← parseLookupRecordListAuto
      PM.pure (Subtable.lk6f3 backtrackCoverage inputCoverage
        lookaheadCoverage lookupRecords)
    else
      PM.fail (.assertFail
        ("0x" ++ natToHex start ++ ": lookup type 6 format must be 1, 2 or 3."))

/-- Translation of `parseLookup6` (gsub.js lines 118 to 161): chaining
contextual substitution, formats 1, 2 and 3. -/
def parseLookup6 : PM Subtable := fun st =>
  parseLookup6At (st.off + st.rel) st

/-- Translation of `parseLookup7` (gsub.js lines 164 to 175): extension
substitution.  After the format check it reads the true lookup type and a
32-bit relative offset, then re-enters the dispatch table (passed here as
an argument) on a fresh parser based at `offset + storedOffset`.  The
cursor of the enclosing parser is left after the 32-bit offset. -/
def parseLookup7 (dispatch : Nat → PM Subtable) : PM Subtable := fun st =>
  match parseUShort st with
  | .ok substFormat st1 =>
      if substFormat = 1 then
        match parseUShort st1 with
        | .ok extensionLookupType st2 =>
            match parseULong st2 with
            | .ok extOffset st3 =>
                match dispatch extensionLookupType ⟨st3.data, st3.off + extOffset, 0⟩ with
                | .ok extension _ => .ok (Subtable.lk7 extensionLookupType extension) st3
                | .err e => .err e
                | .diverge => .diverge
            | .err e => .err e
            | .diverge => .diverge
        | .err e => .err e
        | .diverge => .diverge
      else .err (.assertFail
        "GSUB Extension Substitution subtable identifier-format must be 1")
  | .err e => .err e
  | .diverge => .diverge

/-- Translation of `parseLookup8` (gsub.js lines 178 to 188): reverse
chaining contextual single substitution, format 1 only. -/
def parseLookup8 : PM Subtable := do
  let substFormat ← parseUShort
  checkArgument (substFormat == 1)
    "GSUB Reverse Chaining Contextual Single Substitution Subtable identifier-format must be 1"
  let coverage ← parsePointer parseCoverage
  let backtrackCoverage ← parseListAuto (parsePointer parseCoverage)
  let lookaheadCoverage ← parseListAuto (parsePointer parseCoverage)
  let substitutes ← parseUShortListAuto
  PM.pure (Subtable.lk8 coverage backtrackCoverage lookaheadCoverage substitutes)

/-- The `subtableParsers` dispatch array of `gsub.js`: slots 1 to 8 hold
the decoders above, every other index is unset, and invoking an unset slot
is the JavaScript type error of calling `undefined`.  The fuel argument
bounds only the type 7 recursion through this same array; the source
recursion is unbounded. -/
def subtableParseCore (slot7 : PM Subtable) (t : Nat) : PM Subtable :=
  if t = 1 then parseLookup1
  else if t = 2 then parseLookup2
  else if t = 3 then parseLookup3
  else if t = 4 then parseLookup4
  else if t = 5 then parseLookup5
  else if t = 6 then parseLookup6
  else if t = 7 then slot7
  else if t = 8 then parseLookup8
  else PM.fail .typeError

/-- The fuel-indexed dispatch: at each level slot 7 re-enters the dispatch
of the previous level, consuming one unit of fuel per extension
indirection. -/
def subtableParse : Nat → Nat → PM Subtable
  | 0 => subtableParseCore (fun _ => .diverge)
  | fuel + 1 => subtableParseCore (parseLookup7 (subtableParse fuel))

/-! ## Lookup directory and table assembler -/

/-- Modelled from the spec: one lookup directory entry (section 4.4): at
the resolved entry position read the lookupType field of the lookup and
invoke the dispatch table; a type outside 1 to 8 is the structured
UnknownLookupType parse error of the external directory decoder. -/
def parseLookupEntry (fuel : Nat) : PM LookupEntry := do
  let t ← parseUShort
  if 1 ≤ t ∧ t ≤ 8 then
    let s ← subtableParse fuel t
    PM.pure ⟨t, s⟩
  else PM.fail (.unknownLookupType t)

/-- Process the lookup directory offsets in order, decoding each entry on
a fresh parser based at the directory start plus the stored offset. -/
def lookupLoop (fuel dirStart : Nat) : List Nat → PM (List LookupEntry)
  | [] => PM.pure []
  | o :: os => fun st =>
      match parseLookupEntry fuel ⟨st.data, dirStart + o, 0⟩ with
      | .ok entry _ =>
          match lookupLoop fuel dirStart os st with
          | .ok es st2 => .ok (entry :: es) st2
          | .err e => .err e
          | .diverge => .diverge
      | .err e => .err e
      | .diverge => .diverge

/-- Modelled from the spec: `parseLookupList` (section 4.4): read a 16-bit
count, then that many 16-bit offsets relative to the lookup directory
start, and decode one lookup per offset in directory order. -/
def parseLookupList (fuel : Nat) : PM (List LookupEntry) := fun st =>
  let dirStart := st.off + st.rel
  match parseUShortListAuto st with
  | .ok offsets st1 => lookupLoop fuel dirStart offsets st1
  | .err e => .err e
  | .diverge => .diverge

/-- Translation of `parseGsubTable` (gsub.js lines 191 to 202): validate
the version, then decode the script directory, the feature directory and
the lookup directory in order.  The script and feature decoders are the
externally supplied routines of the spec and are passed as arguments; the
version comparison of the source (`tableVersion === 1`) is the equality of
the wire word with the supported constant. -/
def parseGsubTable (scriptsR : PM σ) (featuresR : PM φ) (fuel : Nat)
    (data : List Nat) (start : Nat) : PRes (GsubTable σ φ) :=
  (do
    let tableVersion ← parseVersion
    checkArgument (tableVersion == supportedVersionWire)
      "Unsupported GSUB table version."
    let scripts ← scriptsR
    let features ← featuresR
    let lookups ← parseLookupList fuel
    PM.pure (GsubTable.mk tableVersion scripts features lookups)) ⟨data, start, 0⟩

/-- A trivial instance of the externally supplied script directory decoder
(out of scope per the spec): reads nothing. -/
def scriptsStub : PM Unit := PM.pure ()

/-- A trivial instance of the externally supplied feature directory
decoder. -/
def featuresStub : PM Unit := PM.pure ()

/-! ## Run lemmas for the primitive reads -/

theorem parseUShort_ok {st : PState} {v : Nat}
    (h : u16At st.data (st.off + st.rel) = some v) :
    parseUShort st = .ok v ⟨st.data, st.off, st.rel + 2⟩ := by
  unfold parseUShort
  rw [h]

theorem parseUShort_ok_inv {st st' : PState} {v : Nat}
    (h : parseUShort st = .ok v st') :
    u16At st.data (st.off + st.rel) = some v ∧
      st' = ⟨st.data, st.off, st.rel + 2⟩ := by
  unfold parseUShort at h
  split at h
  · cases h
    exact ⟨by assumption, rfl⟩
  · cases h

theorem parseShort_ok {st : PState} {v : Nat}
    (h : u16At st.data (st.off + st.rel) = some v) :
    parseShort st = .ok (if v < 32768 then (v : Int) else (v : Int) - 65536)
      ⟨st.data, st.off, st.rel + 2⟩ := by
  unfold parseShort
  rw [h]

theorem parseULong_ok {st : PState} {v : Nat}
    (h : u32At st.data (st.off + st.rel) = some v) :
    parseULong st = .ok v ⟨st.data, st.off, st.rel + 4⟩ := by
  unfold parseULong
  rw [h]

theorem parseULong_ok_inv {st st' : PState} {v : Nat}
    (h : parseULong st = .ok v st') :
    u32At st.data (st.off + st.rel) = some v ∧
      st' = ⟨st.data, st.off, st.rel + 4⟩ := by
  unfold parseULong at h
  split at h
  · cases h
    exact ⟨by assumption, rfl⟩
  · cases h

theorem pointerArm_ok_inv {desc : PM α} {o : Nat} {st st' : PState}
    {ov : Option α} (h : pointerArm desc o st = .ok ov st') : st' = st := by
  unfold pointerArm at h
  split at h
  · cases h
    rfl
  · cases h
  · cases h

theorem parsePointer_ok_inv {desc : PM α} {st st' : PState} {ov : Option α}
    (h : parsePointer desc st = .ok ov st') :
    st' = ⟨st.data, st.off, st.rel + 2⟩ := by
  unfold parsePointer at h
  rw [run_bind] at h
  cases hu : parseUShort st with
  | ok o st1 =>
      obtain ⟨-, rfl⟩ := parseUShort_ok_inv hu
      simp only [hu] at h
      split at h
      · exact pointerArm_ok_inv h
      · cases h
        rfl
  | err e => simp only [hu] at h; cases h
  | diverge => simp only [hu] at h; cases h

/-- A successful run of `parseItems parseUShort n` yields exactly `n`
values and advances the cursor by exactly `2 * n` bytes. -/
theorem parseItems_u16_ok {n : Nat} :
    ∀ {st st' : PState} {xs : List Nat},
      parseItems parseUShort n st = .ok xs st' →
      xs.length = n ∧ st' = ⟨st.data, st.off, st.rel + 2 * n⟩ := by
  induction n with
  | zero =>
      intro st st' xs h
      cases h
      exact ⟨rfl, rfl⟩
  | succ n ih =>
      intro st st' xs h
      rw [parseItems_succ, run_bind] at h
      cases hu : parseUShort st with
      | ok v st1 =>
          obtain ⟨-, rfl⟩ := parseUShort_ok_inv hu
          simp only [hu, run_bind] at h
          cases hrest : parseItems parseUShort n ⟨st.data, st.off, st.rel + 2⟩ with
          | ok ys st2 =>
              simp only [hrest, run_pure] at h
              cases h
              obtain ⟨hlen, hst⟩ := ih hrest
              refine ⟨by simp [hlen], ?_⟩
              rw [hst]
              simp only [PState.mk.injEq]
              refine ⟨trivial, trivial, by omega⟩
          | err e => simp only [hrest] at h; cases h
          | diverge => simp only [hrest] at h; cases h
      | err e => simp only [hu] at h; cases h
      | diverge => simp only [hu] at h; cases h

/-! ## The decoders other than type 7 never consume fuel

`NoDiv p` says a decode step can succeed or throw but never runs out of
fuel; the embedding spends fuel only inside the extension indirection. -/

def NoDiv (m : PM α) : Prop := ∀ st, m st ≠ .diverge

theorem noDiv_pure (a : α) : NoDiv (PM.pure a) := by
  intro st h
  cases h

theorem noDiv_fail (e : PErr) : NoDiv (PM.fail e : PM α) := by
  intro st h
  cases h

theorem noDiv_bind {m : PM α} {k : α → PM β}
    (hm : NoDiv m) (hk : ∀ a, NoDiv (k a)) : NoDiv (m >>= k) := by
  intro st
  rw [run_bind]
  cases hms : m st with
  | ok a st1 => exact hk a st1
  | err e => simp
  | diverge => exact absurd hms (hm st)

theorem noDiv_ite {c : Prop} [Decidable c] {p q : PM α}
    (hp : NoDiv p) (hq : NoDiv q) : NoDiv (if c then p else q) := by
  by_cases h : c
  · rwa [if_pos h]
  · rwa [if_neg h]

theorem noDiv_parseUShort : NoDiv parseUShort := by
  intro st
  unfold parseUShort
  cases u16At st.data (st.off + st.rel) <;> simp

theorem noDiv_parseShort : NoDiv parseShort := by
  intro st
  unfold parseShort
  cases u16At st.data (st.off + st.rel) <;> simp

theorem noDiv_parseULong : NoDiv parseULong := by
  intro st
  unfold parseULong
  cases u32At st.data (st.off + st.rel) <;> simp

theorem noDiv_checkArgument (b : Bool) (msg : String) :
    NoDiv (checkArgument b msg) := by
  intro st
  unfold checkArgument
  cases b <;> simp

theorem noDiv_parseItems {item : PM α} (hi : NoDiv item) (n : Nat) :
    NoDiv (parseItems item n) := by
  induction n with
  | zero => exact noDiv_pure []
  | succ n ih =>
      rw [parseItems_succ]
      exact noDiv_bind hi fun x => noDiv_bind ih fun xs => noDiv_pure _

theorem noDiv_parseUShortListN (c : Int) : NoDiv (parseUShortListN c) := by
  unfold parseUShortListN
  exact noDiv_ite (noDiv_fail _) (noDiv_parseItems noDiv_parseUShort _)

theorem noDiv_parseUShortListAuto : NoDiv parseUShortListAuto :=
  noDiv_bind noDiv_parseUShort fun n => noDiv_parseItems noDiv_parseUShort n

theorem noDiv_parseOffset16List : NoDiv parseOffset16List :=
  noDiv_parseUShortListAuto

theorem noDiv_parseListN {item : PM α} (hi : NoDiv item) (c : Nat) :
    NoDiv (parseListN c item) :=
  noDiv_parseItems hi c

theorem noDiv_parseListAuto {item : PM α} (hi : NoDiv item) :
    NoDiv (parseListAuto item) :=
  noDiv_bind noDiv_parseUShort fun n => noDiv_parseItems hi n

theorem noDiv_parseLookupRecord : NoDiv parseLookupRecord :=
  noDiv_bind noDiv_parseUShort fun _ =>
    noDiv_bind noDiv_parseUShort fun _ => noDiv_pure _

theorem noDiv_parseLookupRecordListN (c : Nat) :
    NoDiv (parseLookupRecordListN c) :=
  noDiv_parseItems noDiv_parseLookupRecord c

theorem noDiv_parseLookupRecordListAuto : NoDiv parseLookupRecordListAuto :=
  noDiv_bind noDiv_parseUShort fun n =>
    noDiv_parseItems noDiv_parseLookupRecord n

theorem noDiv_pointerArm {desc : PM α} (hd : NoDiv desc) (o : Nat) :
    NoDiv (pointerArm desc o) := by
  intro st
  unfold pointerArm
  cases hd2 : desc ⟨st.data, st.off + o, 0⟩ with
  | ok v st2 => simp
  | err e => simp
  | diverge => exact absurd hd2 (hd _)

theorem noDiv_parsePointer {desc : PM α} (hd : NoDiv desc) :
    NoDiv (parsePointer desc) := by
  unfold parsePointer
  exact noDiv_bind noDiv_parseUShort fun o =>
    noDiv_ite (noDiv_pointerArm hd o) (noDiv_pure none)

theorem noDiv_parseLolRow {item : PM α} (hi : NoDiv item) :
    NoDiv (parseLolRow item) :=
  noDiv_bind noDiv_parseUShort fun n => noDiv_parseItems hi n

theorem noDiv_parseLolRows {item : PM α} (hi : NoDiv item) (base : Nat)
    (os : List Nat) : NoDiv (parseLolRows item base os) := by
  induction os with
  | nil => exact noDiv_pure []
  | cons o os ih =>
      intro st
      unfold parseLolRows
      cases hr : parseLolRow item ⟨st.data, base + o, 0⟩ with
      | ok row st1 =>
          cases hrest : parseLolRows item base os st with
          | ok rows st2 => simp
          | err e => simp
          | diverge => exact absurd hrest (ih st)
      | err e => simp
      | diverge => exact absurd hr (noDiv_parseLolRow hi _)

theorem noDiv_parseListOfLists {item : PM α} (hi : NoDiv item) :
    NoDiv (parseListOfLists item) := by
  intro st
  unfold parseListOfLists
  cases ho : parseOffset16List st with
  | ok offsets st1 => exact noDiv_parseLolRows hi _ offsets st1
  | err e => simp
  | diverge => exact absurd ho (noDiv_parseOffset16List st)

theorem noDiv_parseListOfListsU16 : NoDiv parseListOfListsU16 :=
  noDiv_parseListOfLists noDiv_parseUShort

theorem noDiv_parseCoverage : NoDiv parseCoverage := by
  unfold parseCoverage
  refine noDiv_bind noDiv_parseUShort fun fmt => noDiv_ite ?_ (noDiv_ite ?_ ?_)
  · exact noDiv_bind noDiv_parseUShortListAuto fun g => noDiv_pure _
  · refine noDiv_bind noDiv_parseUShort fun n => ?_
    refine noDiv_bind (noDiv_parseItems ?_ n) fun r => noDiv_pure _
    exact noDiv_bind noDiv_parseUShort fun s =>
      noDiv_bind noDiv_parseUShort fun e =>
        noDiv_bind noDiv_parseUShort fun i => noDiv_pure _
  · exact noDiv_fail _

theorem noDiv_parseClassDef : NoDiv parseClassDef := by
  unfold parseClassDef
  refine noDiv_bind noDiv_parseUShort fun fmt => noDiv_ite ?_ (noDiv_ite ?_ ?_)
  · exact noDiv_bind noDiv_parseUShort fun s =>
      noDiv_bind noDiv_parseUShortListAuto fun g => noDiv_pure _
  · refine noDiv_bind noDiv_parseUShort fun n => ?_
    refine noDiv_bind (noDiv_parseItems ?_ n) fun r => noDiv_pure _
    exact noDiv_bind noDiv_parseUShort fun s =>
      noDiv_bind noDiv_parseUShort fun e =>
        noDiv_bind noDiv_parseUShort fun c => noDiv_pure _
  · exact noDiv_fail _

theorem noDiv_parseLookup1 : NoDiv parseLookup1 := by
  intro st
  show parseLookup1At (st.off + st.rel) st ≠ .diverge
  refine noDiv_bind noDiv_parseUShort (fun fmt => noDiv_ite ?_ (noDiv_ite ?_ ?_)) st
  · exact noDiv_bind (noDiv_parsePointer noDiv_parseCoverage) fun c =>
      noDiv_bind noDiv_parseUShort fun d => noDiv_pure _
  · exact noDiv_bind (noDiv_parsePointer noDiv_parseCoverage) fun c =>
      noDiv_bind noDiv_parseOffset16List fun xs => noDiv_pure _
  · exact noDiv_fail _

theorem noDiv_parseLookup2 : NoDiv parseLookup2 := by
  unfold parseLookup2
  refine noDiv_bind noDiv_parseUShort fun fmt => noDiv_bind (noDiv_checkArgument _ _) fun u => ?_
  exact noDiv_bind (noDiv_parsePointer noDiv_parseCoverage) fun c =>
    noDiv_bind noDiv_parseListOfListsU16 fun xs => noDiv_pure _

theorem noDiv_parseLookup3 : NoDiv parseLookup3 := by
  unfold parseLookup3
  refine noDiv_bind noDiv_parseUShort fun fmt => noDiv_bind (noDiv_checkArgument _ _) fun u => ?_
  exact noDiv_bind (noDiv_parsePointer noDiv_parseCoverage) fun c =>
    noDiv_bind noDiv_parseListOfListsU16 fun xs => noDiv_pure _

theorem noDiv_parseLigatureRule : NoDiv parseLigatureRule := by
  unfold parseLigatureRule
  exact noDiv_bind noDiv_parseUShort fun g =>
    noDiv_bind noDiv_parseUShort fun n =>
      noDiv_bind (noDiv_parseUShortListN _) fun c => noDiv_pure _

theorem noDiv_parseLookup4 : NoDiv parseLookup4 := by
  unfold parseLookup4
  refine noDiv_bind noDiv_parseUShort fun fmt => noDiv_bind (noDiv_checkArgument _ _) fun u => ?_
  exact noDiv_bind (noDiv_parsePointer noDiv_parseCoverage) fun c =>
    noDiv_bind (noDiv_parseListOfLists noDiv_parseLigatureRule) fun xs => noDiv_pure _

theorem noDiv_parseRule5 : NoDiv parseRule5 := by
  unfold parseRule5
  exact noDiv_bind noDiv_parseUShort fun g =>
    noDiv_bind noDiv_parseUShort fun sc =>
      noDiv_bind (noDiv_parseUShortListN _) fun xs =>
        noDiv_bind (noDiv_parseLookupRecordListN _) fun rs => noDiv_pure _

theorem noDiv_parseClassRule5 : NoDiv parseClassRule5 := by
  unfold parseClassRule5
  exact noDiv_bind noDiv_parseUShort fun g =>
    noDiv_bind noDiv_parseUShort fun sc =>
      noDiv_bind (noDiv_parseUShortListN _) fun xs =>
        noDiv_bind (noDiv_parseLookupRecordListN _) fun rs => noDiv_pure _

theorem noDiv_parseLookup5 : NoDiv parseLookup5 := by
  intro st
  show parseLookup5At (st.off + st.rel) st ≠ .diverge
  refine noDiv_bind noDiv_parseUShort
    (fun fmt => noDiv_ite ?_ (noDiv_ite ?_ (noDiv_ite ?_ ?_))) st
  · exact noDiv_bind (noDiv_parsePointer noDiv_parseCoverage) fun c =>
      noDiv_bind (noDiv_parseListOfLists noDiv_parseRule5) fun xs => noDiv_pure _
  · exact noDiv_bind (noDiv_parsePointer noDiv_parseCoverage) fun c =>
      noDiv_bind (noDiv_parsePointer noDiv_parseClassDef) fun cd =>
        noDiv_bind (noDiv_parseListOfLists noDiv_parseClassRule5) fun xs => noDiv_pure _
  · exact noDiv_bind noDiv_parseUShort fun g =>
      noDiv_bind noDiv_parseUShort fun sc =>
        noDiv_bind (noDiv_parseListN (noDiv_parsePointer noDiv_parseCoverage) _) fun cs =>
          noDiv_bind (noDiv_parseLookupRecordListN _) fun rs => noDiv_pure _
  · exact noDiv_fail _

theorem noDiv_parseChainRule : NoDiv parseChainRule := by
  unfold parseChainRule
  exact noDiv_bind noDiv_parseUShortListAuto fun b =>
    noDiv_bind noDiv_parseShort fun n =>
      noDiv_bind (noDiv_parseUShortListN _) fun i =>
        noDiv_bind noDiv_parseUShortListAuto fun la =>
          noDiv_bind noDiv_parseLookupRecordListAuto fun rs => noDiv_pure _

theorem noDiv_parseLookup6 : NoDiv parseLookup6 := by
  intro st
  show parseLookup6At (st.off + st.rel) st ≠ .diverge
  refine noDiv_bind noDiv_parseUShort
    (fun fmt => noDiv_ite ?_ (noDiv_ite ?_ (noDiv_ite ?_ ?_))) st
  · exact noDiv_bind (noDiv_parsePointer noDiv_parseCoverage) fun c =>
      noDiv_bind (noDiv_parseListOfLists noDiv_parseChainRule) fun xs => noDiv_pure _
  · exact noDiv_bind (noDiv_parsePointer noDiv_parseCoverage) fun c =>
      noDiv_bind (noDiv_parsePointer noDiv_parseClassDef) fun b =>
        noDiv_bind (noDiv_parsePointer noDiv_parseClassDef) fun i =>
          noDiv_bind (noDiv_parsePointer noDiv_parseClassDef) fun la =>
            noDiv_bind (noDiv_parseListOfLists noDiv_parseChainRule) fun xs => noDiv_pure _
  · exact noDiv_bind (noDiv_parseListAuto (noDiv_parsePointer noDiv_parseCoverage)) fun b =>
      noDiv_bind (noDiv_parseListAuto (noDiv_parsePointer noDiv_parseCoverage)) fun i =>
        noDiv_bind (noDiv_parseListAuto (noDiv_parsePointer noDiv_parseCoverage)) fun la =>
          noDiv_bind noDiv_parseLookupRecordListAuto fun rs => noDiv_pure _
  · exact noDiv_fail _

theorem noDiv_parseLookup8 : NoDiv parseLookup8 := by
  unfold parseLookup8
  refine noDiv_bind noDiv_parseUShort fun fmt => noDiv_bind (noDiv_checkArgument _ _) fun u => ?_
  exact noDiv_bind (noDiv_parsePointer noDiv_parseCoverage) fun c =>
    noDiv_bind (noDiv_parseListAuto (noDiv_parsePointer noDiv_parseCoverage)) fun b =>
      noDiv_bind (noDiv_parseListAuto (noDiv_parsePointer noDiv_parseCoverage)) fun la =>
        noDiv_bind noDiv_parseUShortListAuto fun xs => noDiv_pure _

/-- Dispatching any lookup type other than 7 never consumes fuel: those
eight decoders cannot recurse. -/
theorem noDiv_subtableParse_ne7 (fuel t : Nat) (ht : t ≠ 7) :
    NoDiv (subtableParse fuel t) := by
  have hcore : ∀ slot7, NoDiv (subtableParseCore slot7 t) := by
    intro slot7
    unfold subtableParseCore
    by_cases h1 : t = 1
    · rw [if_pos h1]; exact noDiv_parseLookup1
    rw [if_neg h1]
    by_cases h2 : t = 2
    · rw [if_pos h2]; exact noDiv_parseLookup2
    rw [if_neg h2]
    by_cases h3 : t = 3
    · rw [if_pos h3]; exact noDiv_parseLookup3
    rw [if_neg h3]
    by_cases h4 : t = 4
    · rw [if_pos h4]; exact noDiv_parseLookup4
    rw [if_neg h4]
    by_cases h5 : t = 5
    · rw [if_pos h5]; exact noDiv_parseLookup5
    rw [if_neg h5]
    by_cases h6 : t = 6
    · rw [if_pos h6]; exact noDiv_parseLookup6
    rw [if_neg h6]
    rw [if_neg ht]
    by_cases h8 : t = 8
    · rw [if_pos h8]; exact noDiv_parseLookup8
    rw [if_neg h8]
    exact noDiv_fail _
  cases fuel with
  | zero => exact hcore _
  | succ f => exact hcore _

/-- Reading the extension lookup type field of a type 7 subtable: the
format word, then the true type word. -/
def extTypeAt (st : PState) : Option Nat :=
  match parseUShort st with
  | .ok _ st1 =>
      match parseUShort st1 with
      | .ok t _ => some t
      | _ => none
  | _ => none

/-- A type 7 dispatch with at least one unit of fuel diverges only if the
extension indirects to type 7 again. -/
theorem noDiv_subtableParse7 (fuel : Nat) (st : PState)
    (hne : ∀ t', extTypeAt st = some t' → t' ≠ 7) :
    subtableParse (fuel + 1) 7 st ≠ .diverge := by
  show parseLookup7 (subtableParse fuel) st ≠ .diverge
  unfold parseLookup7
  cases hu : parseUShort st with
  | ok substFormat st1 =>
      simp only [hu]
      by_cases hf : substFormat = 1
      · rw [if_pos hf]
        cases hu2 : parseUShort st1 with
        | ok t st2 =>
            simp only [hu2]
            cases hu3 : parseULong st2 with
            | ok L st3 =>
                simp only [hu3]
                have ht : t ≠ 7 := by
                  apply hne
                  unfold extTypeAt
                  simp only [hu, hu2]
                cases hd : subtableParse fuel t ⟨st3.data, st3.off + L, 0⟩ with
                | ok v st4 => simp
                | err e => simp
                | diverge => exact absurd hd (noDiv_subtableParse_ne7 fuel t ht _)
            | err e => simp
            | diverge => exact absurd hu3 (noDiv_parseULong st2)
        | err e => simp
        | diverge => exact absurd hu2 (noDiv_parseUShort st1)
      · rw [if_neg hf]
        simp
  | err e => simp [hu]
  | diverge => exact absurd hu (noDiv_parseUShort st)

/-! ## A self-referential extension input

`loopData` is a complete GSUB table whose single lookup is a type 7
extension; the extension target (at byte 26) is itself a type 7 extension
subtable whose 32-bit relative offset is 0, so it indirects to its own
base: the dispatch re-entry of the source recurses on an identical cursor
state forever.  Layout: bytes 0..3 version 0x00010000; 4..5 lookup count
1; 6..7 directory offset 8; 12..13 lookupType 7; 14..15 substFormat 1;
16..17 extension type 7; 18..21 extension offset 14 (base 12, so target
26); 26..27 substFormat 1; 28..29 extension type 7; 30..33 extension
offset 0. -/
def loopData : List Nat :=
  [0, 1, 0, 0, 0, 1, 0, 8, 0, 0, 0, 0, 0, 7, 0, 1, 0, 7, 0, 0, 0, 14,
   0, 0, 0, 0, 0, 1, 0, 7, 0, 0, 0, 0]

theorem loopData_fix (f : Nat) :
    subtableParse f 7 ⟨loopData, 26, 0⟩ = .diverge := by
  induction f with
  | zero => rfl
  | succ f ih =>
      show parseLookup7 (subtableParse f) ⟨loopData, 26, 0⟩ = .diverge
      change (match subtableParse f 7 ⟨loopData, 26, 0⟩ with
        | .ok extension _ => PRes.ok (Subtable.lk7 7 extension) ⟨loopData, 26, 8⟩
        | .err e => .err e
        | .diverge => .diverge) = PRes.diverge
      rw [ih]

theorem loopData_lookup (f : Nat) :
    subtableParse f 7 ⟨loopData, 12, 2⟩ = .diverge := by
  cases f with
  | zero => rfl
  | succ f =>
      show parseLookup7 (subtableParse f) ⟨loopData, 12, 2⟩ = .diverge
      change (match subtableParse f 7 ⟨loopData, 26, 0⟩ with
        | .ok extension _ => PRes.ok (Subtable.lk7 7 extension) ⟨loopData, 12, 10⟩
        | .err e => .err e
        | .diverge => .diverge) = PRes.diverge
      rw [loopData_fix f]

theorem loopData_entry (f : Nat) :
    parseLookupEntry f ⟨loopData, 12, 0⟩ = .diverge := by
  change ((subtableParse f 7) >>= fun s =>
    PM.pure (LookupEntry.mk 7 s)) ⟨loopData, 12, 2⟩ = PRes.diverge
  rw [run_bind, loopData_lookup f]

theorem lookupLoop_cons_diverge {f dS o : Nat} {os : List Nat} (st : PState)
    (h : parseLookupEntry f ⟨st.data, dS + o, 0⟩ = .diverge) :
    lookupLoop f dS (o :: os) st = .diverge := by
  unfold lookupLoop
  rw [h]

theorem loopData_list (f : Nat) :
    parseLookupList f ⟨loopData, 0, 4⟩ = .diverge := by
  change lookupLoop f 4 [8] ⟨loopData, 0, 8⟩ = PRes.diverge
  exact lookupLoop_cons_diverge _ (loopData_entry f)

theorem loopData_top (f : Nat) :
    parseGsubTable scriptsStub featuresStub f loopData 0 = .diverge := by
  change ((parseLookupList f) >>= fun lks =>
    PM.pure (GsubTable.mk 65536 () () lks)) ⟨loopData, 0, 4⟩ = PRes.diverge
  rw [run_bind, loopData_list f]

/-- The top-level decode of a buffer terminates: some fuel suffices.  The
fuel of the embedding only bounds the type 7 re-entry depth, so this is
exactly termination of the unbounded recursion of the source. -/
def GsubTerminates (d : List Nat) (s : Nat) : Prop :=
  ∃ fuel, parseGsubTable scriptsStub featuresStub fuel d s ≠ .diverge

/-- The top-level decode of a buffer returns a table at some fuel. -/
def GsubReturns (d : List Nat) (s : Nat) : Prop :=
  ∃ fuel t st', parseGsubTable scriptsStub featuresStub fuel d s = .ok t st'

/-- The top-level decode of a buffer fails with an error at some fuel. -/
def GsubFails (d : List Nat) (s : Nat) : Prop :=
  ∃ fuel e, parseGsubTable scriptsStub featuresStub fuel d s = .err e

/-! ## Failure-path run lemmas -/

theorem checkArgument_true {b : Bool} (h : b = true) (msg : String) (st : PState) :
    checkArgument b msg st = .ok () st := by
  subst h
  rfl

theorem checkArgument_false {b : Bool} (h : b = false) (msg : String) (st : PState) :
    checkArgument b msg st = .err (.assertFail msg) := by
  subst h
  rfl

/-- Every value a 16-bit read produces from a buffer of genuine bytes is
below `2^16`. -/
theorem u16At_lt {d : List Nat} (hb : ∀ b ∈ d, b < 256) {i v : Nat}
    (h : u16At d i = some v) : v < 65536 := by
  unfold u16At at h
  split at h
  case h_1 b0 b1 h0 h1 =>
    cases h
    have hb0 := hb b0 (List.get?_mem h0)
    have hb1 := hb b1 (List.get?_mem h1)
    omega
  case h_2 => cases h

/-- An unsupported discriminant in a type 5 subtable throws with the byte
offset of the discriminant rendered into the message. -/
theorem lk5_badFormat {d : List Nat} {off rel v : Nat}
    (h : u16At d (off + rel) = some v) (h1 : v ≠ 1) (h2 : v ≠ 2) (h3 : v ≠ 3) :
    parseLookup5 ⟨d, off, rel⟩ = .err (.assertFail
      ("0x" ++ natToHex (off + rel) ++ ": lookup type 5 format must be 1, 2 or 3.")) := by
  show parseLookup5At (off + rel) ⟨d, off, rel⟩ = _
  unfold parseLookup5At
  rw [run_bind]
  have hu : parseUShort ⟨d, off, rel⟩ = .ok v ⟨d, off, rel + 2⟩ := parseUShort_ok h
  simp only [hu, if_neg h1, if_neg h2, if_neg h3, run_fail]

/-- An unsupported discriminant in a type 6 subtable throws with the byte
offset of the discriminant rendered into the message. -/
theorem lk6_badFormat {d : List Nat} {off rel v : Nat}
    (h : u16At d (off + rel) = some v) (h1 : v ≠ 1) (h2 : v ≠ 2) (h3 : v ≠ 3) :
    parseLookup6 ⟨d, off, rel⟩ = .err (.assertFail
      ("0x" ++ natToHex (off + rel) ++ ": lookup type 6 format must be 1, 2 or 3.")) := by
  show parseLookup6At (off + rel) ⟨d, off, rel⟩ = _
  unfold parseLookup6At
  rw [run_bind]
  have hu : parseUShort ⟨d, off, rel⟩ = .ok v ⟨d, off, rel + 2⟩ := parseUShort_ok h
  simp only [hu, if_neg h1, if_neg h2, if_neg h3, run_fail]

/-- An unsupported discriminant in a type 1 subtable throws with the byte
offset of the discriminant rendered into the message. -/
theorem lk1_badFormat {d : List Nat} {off rel v : Nat}
    (h : u16At d (off + rel) = some v) (h1 : v ≠ 1) (h2 : v ≠ 2) :
    parseLookup1 ⟨d, off, rel⟩ = .err (.assertFail
      ("0x" ++ natToHex (off + rel) ++ ": lookup type 1 format must be 1 or 2.")) := by
  show parseLookup1At (off + rel) ⟨d, off, rel⟩ = _
  unfold parseLookup1At
  rw [run_bind]
  have hu : parseUShort ⟨d, off, rel⟩ = .ok v ⟨d, off, rel + 2⟩ := parseUShort_ok h
  simp only [hu, if_neg h1, if_neg h2, run_fail]

/-- An unsupported discriminant in a type 2 subtable throws the fixed
message of the source, which carries no offset. -/
theorem lk2_badFormat {d : List Nat} {off rel v : Nat}
    (h : u16At d (off + rel) = some v) (h1 : v ≠ 1) :
    parseLookup2 ⟨d, off, rel⟩ = .err (.assertFail
      "GSUB Multiple Substitution Subtable identifier-format must be 1") := by
  unfold parseLookup2
  rw [run_bind]
  have hu : parseUShort ⟨d, off, rel⟩ = .ok v ⟨d, off, rel + 2⟩ := parseUShort_ok h
  simp only [hu, run_bind,
    checkArgument_false (beq_eq_false_iff_ne.mpr h1) _ _]

theorem lk3_badFormat {d : List Nat} {off rel v : Nat}
    (h : u16At d (off + rel) = some v) (h1 : v ≠ 1) :
    parseLookup3 ⟨d, off, rel⟩ = .err (.assertFail
      "GSUB Alternate Substitution Subtable identifier-format must be 1") := by
  unfold parseLookup3
  rw [run_bind]
  have hu : parseUShort ⟨d, off, rel⟩ = .ok v ⟨d, off, rel + 2⟩ := parseUShort_ok h
  simp only [hu, run_bind,
    checkArgument_false (beq_eq_false_iff_ne.mpr h1) _ _]

theorem lk4_badFormat {d : List Nat} {off rel v : Nat}
    (h : u16At d (off + rel) = some v) (h1 : v ≠ 1) :
    parseLookup4 ⟨d, off, rel⟩ = .err (.assertFail
      "GSUB ligature table identifier-format must be 1") := by
  unfold parseLookup4
  rw [run_bind]
  have hu : parseUShort ⟨d, off, rel⟩ = .ok v ⟨d, off, rel + 2⟩ := parseUShort_ok h
  simp only [hu, run_bind,
    checkArgument_false (beq_eq_false_iff_ne.mpr h1) _ _]

theorem lk7_badFormat {dispatch : Nat → PM Subtable} {d : List Nat} {off rel v : Nat}
    (h : u16At d (off + rel) = some v) (h1 : v ≠ 1) :
    parseLookup7 dispatch ⟨d, off, rel⟩ = .err (.assertFail
      "GSUB Extension Substitution subtable identifier-format must be 1") := by
  unfold parseLookup7
  have hu : parseUShort ⟨d, off, rel⟩ = .ok v ⟨d, off, rel + 2⟩ := parseUShort_ok h
  simp only [hu, if_neg h1]

theorem lk8_badFormat {d : List Nat} {off rel v : Nat}
    (h : u16At d (off + rel) = some v) (h1 : v ≠ 1) :
    parseLookup8 ⟨d, off, rel⟩ = .err (.assertFail
      "GSUB Reverse Chaining Contextual Single Substitution Subtable identifier-format must be 1") := by
  unfold parseLookup8
  rw [run_bind]
  have hu : parseUShort ⟨d, off, rel⟩ = .ok v ⟨d, off, rel + 2⟩ := parseUShort_ok h
  simp only [hu, run_bind,
    checkArgument_false (beq_eq_false_iff_ne.mpr h1) _ _]

/-- A version word other than the supported constant aborts the whole
decode with the fixed message of the source, for every externally supplied
script and feature decoder and every fuel. -/
theorem gsub_badVersion {σ φ : Type} (sR : PM σ) (fR : PM φ) (fuel : Nat)
    {d : List Nat} {s w : Nat} (h : u32At d s = some w)
    (hne : w ≠ supportedVersionWire) :
    parseGsubTable sR fR fuel d s =
      .err (.assertFail "Unsupported GSUB table version.") := by
  unfold parseGsubTable
  rw [run_bind]
  have hv : parseVersion ⟨d, s, 0⟩ = .ok w ⟨d, s, 0 + 4⟩ :=
    parseULong_ok (by simpa using h)
  simp only [hv, run_bind,
    checkArgument_false (beq_eq_false_iff_ne.mpr hne) _ _]

/-! ## Functional lemmas for the success paths -/

/-- Inversion of a format 1 single-substitution decode: the
`deltaGlyphId` field is exactly the unsigned 16-bit wire value four bytes
past the subtable start (format word, then the two-byte coverage offset,
then the delta). -/
theorem lk1f1_delta {d : List Nat} {off rel : Nat} {cov : Option Coverage}
    {dgi : Nat} {stF : PState}
    (h : parseLookup1 ⟨d, off, rel⟩ = .ok (.lk1f1 cov dgi) stF) :
    u16At d (off + rel + 4) = some dgi := by
  have h' : parseLookup1At (off + rel) ⟨d, off, rel⟩ = .ok (.lk1f1 cov dgi) stF := h
  unfold parseLookup1At at h'
  rw [run_bind] at h'
  cases hu : parseUShort ⟨d, off, rel⟩ with
  | ok v st1 =>
      obtain ⟨hu16, rfl⟩ := parseUShort_ok_inv hu
      simp only [hu] at h'
      by_cases hv : v = 1
      · rw [if_pos hv, run_bind] at h'
        cases hp : parsePointer parseCoverage ⟨d, off, rel + 2⟩ with
        | ok ocov st2 =>
            have hst2 := parsePointer_ok_inv hp
            simp only at hst2
            subst hst2
            simp only [hp, run_bind] at h'
            cases hd : parseUShort ⟨d, off, rel + 2 + 2⟩ with
            | ok w st3 =>
                simp only [hd, run_pure] at h'
                cases h'
                obtain ⟨hw, -⟩ := parseUShort_ok_inv hd
                have : off + (rel + 2 + 2) = off + rel + 4 := by omega
                rw [← this]
                exact hw
            | err e => simp only [hd] at h'; cases h'
            | diverge => simp only [hd] at h'; cases h'
        | err e => simp only [hp] at h'; cases h'
        | diverge => simp only [hp] at h'; cases h'
      · rw [if_neg hv] at h'
        by_cases hv2 : v = 2
        · rw [if_pos hv2, run_bind] at h'
          cases hp : parsePointer parseCoverage ⟨d, off, rel + 2⟩ with
          | ok ocov st2 =>
              simp only [hp, run_bind] at h'
              cases hq : parseOffset16List st2 with
              | ok xs st3 =>
                  simp only [hq, run_pure] at h'
                  cases h'
              | err e => simp only [hq] at h'; cases h'
              | diverge => simp only [hq] at h'; cases h'
          | err e => simp only [hp] at h'; cases h'
          | diverge => simp only [hp] at h'; cases h'
        · rw [if_neg hv2] at h'
          cases h'
  | err e => simp only [hu] at h'; cases h'
  | diverge => simp only [hu] at h'; cases h'

/-- A successful ligature-rule decode with glyph count `g ≥ 1` reads the
ligature glyph, the count, and then exactly `g - 1` component glyphs: the
component list has length `g - 1` and the cursor ends exactly `2 * (g - 1)`
bytes past the count field. -/
theorem parseLigatureRule_ok {d : List Nat} {off rel lig g : Nat}
    {comps : List Nat} {stI : PState}
    (hlig : u16At d (off + rel) = some lig)
    (hg : u16At d (off + rel + 2) = some g)
    (hone : 1 ≤ g)
    (hcomps : parseUShortListN ((g : Int) - 1) ⟨d, off, rel + 4⟩ = .ok comps stI) :
    parseLigatureRule ⟨d, off, rel⟩ =
      .ok ⟨lig, comps⟩ ⟨d, off, rel + 4 + 2 * (g - 1)⟩ ∧
    comps.length = g - 1 := by
  have hnn : ¬ ((g : Int) - 1 < 0) := by omega
  have htn : ((g : Int) - 1).toNat = g - 1 := by omega
  have hitems : parseItems parseUShort (g - 1) ⟨d, off, rel + 4⟩ = .ok comps stI := by
    unfold parseUShortListN at hcomps
    rw [if_neg hnn, htn] at hcomps
    exact hcomps
  obtain ⟨hlen, hstI⟩ := parseItems_u16_ok hitems
  constructor
  · unfold parseLigatureRule
    rw [run_bind]
    have hu1 : parseUShort ⟨d, off, rel⟩ = .ok lig ⟨d, off, rel + 2⟩ :=
      parseUShort_ok hlig
    have hu2 : parseUShort ⟨d, off, rel + 2⟩ = .ok g ⟨d, off, rel + 2 + 2⟩ :=
      parseUShort_ok (by rw [← Nat.add_assoc]; exact hg)
    have h4 : (⟨d, off, rel + 2 + 2⟩ : PState) = ⟨d, off, rel + 4⟩ := by
      have h24 : rel + 2 + 2 = rel + 4 := by omega
      rw [h24]
    have hstI' : stI = ⟨d, off, rel + 4 + 2 * (g - 1)⟩ := hstI
    simp only [hu1, run_bind, hu2, h4, hcomps, run_pure', hstI']
  · exact hlen

/-- A type 6 chain rule whose input count field has the high bit set: the
signed read sign-extends the count `v` to `v - 2^16`, the length handed to
the input list read is `(v - 2^16) - 1 < 0`, and the rule decode throws
the range error of the negative array allocation — whatever bytes
follow. -/
theorem parseChainRule_negCount {st st1 : PState} {bt : List Nat} {v : Nat}
    (hbt : parseUShortListAuto st = .ok bt st1)
    (hv : u16At st1.data (st1.off + st1.rel) = some v)
    (hhi : 32768 ≤ v) (hlt : v < 65536) :
    parseChainRule st = .err .rangeError := by
  unfold parseChainRule
  rw [run_bind]
  have hs : parseShort st1 = .ok ((v : Int) - 65536) ⟨st1.data, st1.off, st1.rel + 2⟩ := by
    have := parseShort_ok hv
    rw [if_neg (by omega)] at this
    exact this
  simp only [hbt, run_bind, hs]
  have hneg : ((v : Int) - 65536) - 1 < 0 := by omega
  unfold parseUShortListN
  rw [if_pos hneg]
  simp

/-- A type 5 rule whose glyph count field carries the same bytes is read
unsigned: the input list read is handed length `v - 1` and a successful
decode yields exactly `v - 1` input glyphs. -/
theorem parseRule5_count {d : List Nat} {off rel v sc : Nat}
    {input : List Nat} {recs : List LookupRecord} {stI stR : PState}
    (hv : u16At d (off + rel) = some v) (hone : 1 ≤ v)
    (hsc : u16At d (off + rel + 2) = some sc)
    (hinput : parseUShortListN ((v : Int) - 1) ⟨d, off, rel + 4⟩ = .ok input stI)
    (hrecs : parseLookupRecordListN sc stI = .ok recs stR) :
    parseRule5 ⟨d, off, rel⟩ = .ok ⟨input, recs⟩ stR ∧ input.length = v - 1 := by
  have hnn : ¬ ((v : Int) - 1 < 0) := by omega
  have htn : ((v : Int) - 1).toNat = v - 1 := by omega
  have hitems : parseItems parseUShort (v - 1) ⟨d, off, rel + 4⟩ = .ok input stI := by
    unfold parseUShortListN at hinput
    rw [if_neg hnn, htn] at hinput
    exact hinput
  obtain ⟨hlen, -⟩ := parseItems_u16_ok hitems
  constructor
  · unfold parseRule5
    rw [run_bind]
    have hu1 : parseUShort ⟨d, off, rel⟩ = .ok v ⟨d, off, rel + 2⟩ :=
      parseUShort_ok hv
    have hu2 : parseUShort ⟨d, off, rel + 2⟩ = .ok sc ⟨d, off, rel + 2 + 2⟩ :=
      parseUShort_ok (by rw [← Nat.add_assoc]; exact hsc)
    have h4 : (⟨d, off, rel + 2 + 2⟩ : PState) = ⟨d, off, rel + 4⟩ := by
      have h24 : rel + 2 + 2 = rel + 4 := by omega
      rw [h24]
    simp only [hu1, run_bind, hu2, h4, hinput, hrecs, run_pure']
  · exact hlen

/-! ## Base-relative locality

A decoder is base-relative when its behaviour depends only on the bytes
from its base offset onward: running it over two buffers that agree from
the respective bases yields the same decoded value (and the same cursor
movement); the error and divergence outcomes also correspond, though the
thrown messages may render different absolute offsets. -/

/-- The two buffers agree from the two bases onward (including where each
ends). -/
def SameFrom (d : List Nat) (B : Nat) (d' : List Nat) (B' : Nat) : Prop :=
  ∀ k, d.get? (B + k) = d'.get? (B' + k)

theorem sameFrom_shift {d d' : List Nat} {B B' : Nat}
    (h : SameFrom d B d' B') (o : Nat) : SameFrom d (B + o) d' (B' + o) := by
  intro k
  rw [Nat.add_assoc, Nat.add_assoc]
  exact h (o + k)

theorem sameFrom_u16 {d d' : List Nat} {B B' : Nat}
    (h : SameFrom d B d' B') (r : Nat) :
    u16At d (B + r) = u16At d' (B' + r) := by
  unfold u16At
  rw [h r]
  have h1 : d.get? (B + r + 1) = d'.get? (B' + r + 1) := by
    rw [Nat.add_assoc B r 1, Nat.add_assoc B' r 1]
    exact h (r + 1)
  rw [h1]

theorem sameFrom_u32 {d d' : List Nat} {B B' : Nat}
    (h : SameFrom d B d' B') (r : Nat) :
    u32At d (B + r) = u32At d' (B' + r) := by
  unfold u32At
  rw [sameFrom_u16 h r]
  have h2 : u16At d (B + r + 2) = u16At d' (B' + r + 2) := by
    rw [Nat.add_assoc B r 2, Nat.add_assoc B' r 2]
    exact sameFrom_u16 h (r + 2)
  rw [h2]

/-- Correspondence of two run results over agreeing buffers: successes
carry the same value and the same cursor movement relative to the two
bases; failures correspond to failures and fuel exhaustion to fuel
exhaustion. -/
def RelRes (d : List Nat) (B : Nat) (d' : List Nat) (B' : Nat) :
    PRes α → PRes α → Prop
  | .ok a st1, .ok a' st1' =>
      a = a' ∧ st1.data = d ∧ st1.off = B ∧ st1'.data = d' ∧ st1'.off = B' ∧
        st1.rel = st1'.rel
  | .err _, .err _ => True
  | .diverge, .diverge => True
  | _, _ => False

/-- Two decoders that run in lockstep over buffers agreeing from the
bases. -/
def ShiftsRel (p q : PM α) : Prop :=
  ∀ d B d' B' r, SameFrom d B d' B' →
    RelRes d B d' B' (p ⟨d, B, r⟩) (q ⟨d', B', r⟩)

/-- A base-relative decoder. -/
def Shifts (p : PM α) : Prop := ShiftsRel p p

theorem shiftsRel_pure (a : α) : ShiftsRel (PM.pure a) (PM.pure a) := by
  intro d B d' B' r h
  exact ⟨rfl, rfl, rfl, rfl, rfl, rfl⟩

theorem shiftsRel_fail (e e' : PErr) :
    ShiftsRel (PM.fail e : PM α) (PM.fail e') := by
  intro d B d' B' r h
  trivial

theorem shiftsRel_bind {m m' : PM α} {k k' : α → PM β}
    (hm : ShiftsRel m m') (hk : ∀ a, ShiftsRel (k a) (k' a)) :
    ShiftsRel (m >>= k) (m' >>= k') := by
  intro d B d' B' r h
  rw [run_bind, run_bind]
  have hmr := hm d B d' B' r h
  cases h1 : m ⟨d, B, r⟩ with
  | ok a st1 =>
      cases h2 : m' ⟨d', B', r⟩ with
      | ok a' st1' =>
          rw [h1, h2] at hmr
          obtain ⟨rfl, hd1, ho1, hd2, ho2, hr⟩ := hmr
          obtain ⟨d1, o1, r1⟩ := st1
          obtain ⟨d2, o2, r2⟩ := st1'
          simp only at hd1 ho1 hd2 ho2 hr
          subst hd1; subst ho1; subst hd2; subst ho2; subst hr
          exact hk a _ _ _ _ r1 h
      | err e => rw [h1, h2] at hmr; exact absurd hmr (by simp [RelRes])
      | diverge => rw [h1, h2] at hmr; exact absurd hmr (by simp [RelRes])
  | err e =>
      cases h2 : m' ⟨d', B', r⟩ with
      | ok a' st1' => rw [h1, h2] at hmr; exact absurd hmr (by simp [RelRes])
      | err e' => trivial
      | diverge => rw [h1, h2] at hmr; exact absurd hmr (by simp [RelRes])
  | diverge =>
      cases h2 : m' ⟨d', B', r⟩ with
      | ok a' st1' => rw [h1, h2] at hmr; exact absurd hmr (by simp [RelRes])
      | err e' => rw [h1, h2] at hmr; exact absurd hmr (by simp [RelRes])
      | diverge => trivial

theorem shiftsRel_ite {c : Prop} [Decidable c] {p p' q q' : PM α}
    (hp : ShiftsRel p p') (hq : ShiftsRel q q') :
    ShiftsRel (if c then p else q) (if c then p' else q') := by
  by_cases h : c
  · rw [if_pos h, if_pos h]; exact hp
  · rw [if_neg h, if_neg h]; exact hq

theorem shifts_parseUShort : Shifts parseUShort := by
  intro d B d' B' r h
  unfold parseUShort
  simp only
  rw [show u16At d (B + r) = u16At d' (B' + r) from sameFrom_u16 h r]
  cases u16At d' (B' + r) with
  | some v => exact ⟨rfl, rfl, rfl, rfl, rfl, rfl⟩
  | none => trivial

theorem shifts_parseShort : Shifts parseShort := by
  intro d B d' B' r h
  unfold parseShort
  simp only
  rw [show u16At d (B + r) = u16At d' (B' + r) from sameFrom_u16 h r]
  cases u16At d' (B' + r) with
  | some v => exact ⟨rfl, rfl, rfl, rfl, rfl, rfl⟩
  | none => trivial

theorem shifts_parseULong : Shifts parseULong := by
  intro d B d' B' r h
  unfold parseULong
  simp only
  rw [show u32At d (B + r) = u32At d' (B' + r) from sameFrom_u32 h r]
  cases u32At d' (B' + r) with
  | some v => exact ⟨rfl, rfl, rfl, rfl, rfl, rfl⟩
  | none => trivial

theorem shiftsRel_checkArgument (b : Bool) (msg msg' : String) :
    ShiftsRel (checkArgument b msg) (checkArgument b msg') := by
  intro d B d' B' r h
  unfold checkArgument
  cases b with
  | true => exact ⟨rfl, rfl, rfl, rfl, rfl, rfl⟩
  | false => trivial

theorem shiftsRel_parseItems {item item' : PM α}
    (hi : ShiftsRel item item') (n : Nat) :
    ShiftsRel (parseItems item n) (parseItems item' n) := by
  induction n with
  | zero => exact shiftsRel_pure []
  | succ n ih =>
      rw [parseItems_succ, parseItems_succ]
      exact shiftsRel_bind hi fun x =>
        shiftsRel_bind ih fun xs => shiftsRel_pure _

theorem shifts_parseUShortListN (c : Int) : Shifts (parseUShortListN c) := by
  unfold parseUShortListN
  exact shiftsRel_ite (shiftsRel_fail _ _)
    (shiftsRel_parseItems shifts_parseUShort _)

theorem shifts_parseUShortListAuto : Shifts parseUShortListAuto :=
  shiftsRel_bind shifts_parseUShort fun n =>
    shiftsRel_parseItems shifts_parseUShort n

theorem shifts_parseOffset16List : Shifts parseOffset16List :=
  shifts_parseUShortListAuto

theorem shiftsRel_pointerArm {desc desc' : PM α}
    (hd : ShiftsRel desc desc') (o : Nat) :
    ShiftsRel (pointerArm desc o) (pointerArm desc' o) := by
  intro d B d' B' r h
  unfold pointerArm
  dsimp only
  have hin := hd d (B + o) d' (B' + o) 0 (sameFrom_shift h o)
  cases hi1 : desc ⟨d, B + o, 0⟩ with
  | ok v stv =>
      cases hi2 : desc' ⟨d', B' + o, 0⟩ with
      | ok v' stv' =>
          rw [hi1, hi2] at hin
          obtain ⟨rfl, -⟩ := hin
          exact ⟨rfl, rfl, rfl, rfl, rfl, rfl⟩
      | err e => rw [hi1, hi2] at hin; exact absurd hin (by simp [RelRes])
      | diverge => rw [hi1, hi2] at hin; exact absurd hin (by simp [RelRes])
  | err e =>
      cases hi2 : desc' ⟨d', B' + o, 0⟩ with
      | ok v' stv' => rw [hi1, hi2] at hin; exact absurd hin (by simp [RelRes])
      | err e' => trivial
      | diverge => rw [hi1, hi2] at hin; exact absurd hin (by simp [RelRes])
  | diverge =>
      cases hi2 : desc' ⟨d', B' + o, 0⟩ with
      | ok v' stv' => rw [hi1, hi2] at hin; exact absurd hin (by simp [RelRes])
      | err e' => rw [hi1, hi2] at hin; exact absurd hin (by simp [RelRes])
      | diverge => trivial

theorem shifts_parsePointer {desc desc' : PM α}
    (hd : ShiftsRel desc desc') :
    ShiftsRel (parsePointer desc) (parsePointer desc') := by
  unfold parsePointer
  exact shiftsRel_bind shifts_parseUShort fun o =>
    shiftsRel_ite (shiftsRel_pointerArm hd o) (shiftsRel_pure none)

theorem shifts_parseCoverage : Shifts parseCoverage := by
  unfold parseCoverage
  refine shiftsRel_bind shifts_parseUShort fun fmt =>
    shiftsRel_ite ?_ (shiftsRel_ite ?_ ?_)
  · exact shiftsRel_bind shifts_parseUShortListAuto fun g => shiftsRel_pure _
  · refine shiftsRel_bind shifts_parseUShort fun n =>
      shiftsRel_bind (shiftsRel_parseItems ?_ n) fun rs => shiftsRel_pure _
    exact shiftsRel_bind shifts_parseUShort fun s =>
      shiftsRel_bind shifts_parseUShort fun e =>
        shiftsRel_bind shifts_parseUShort fun i => shiftsRel_pure _
  · exact shiftsRel_fail _ _

theorem shiftsRel_parseLookup1At (s0 s0' : Nat) :
    ShiftsRel (parseLookup1At s0) (parseLookup1At s0') := by
  unfold parseLookup1At
  refine shiftsRel_bind shifts_parseUShort fun fmt =>
    shiftsRel_ite ?_ (shiftsRel_ite ?_ ?_)
  · exact shiftsRel_bind (shifts_parsePointer shifts_parseCoverage) fun c =>
      shiftsRel_bind shifts_parseUShort fun dg => shiftsRel_pure _
  · exact shiftsRel_bind (shifts_parsePointer shifts_parseCoverage) fun c =>
      shiftsRel_bind shifts_parseOffset16List fun xs => shiftsRel_pure _
  · exact shiftsRel_fail _ _

/-- `parseLookup1` is base-relative: over two buffers that agree from the
two bases, a direct decode yields identical values with identical cursor
movement. -/
theorem shifts_parseLookup1 : Shifts parseLookup1 := by
  intro d B d' B' r h
  show RelRes d B d' B'
    (parseLookup1At (B + r) ⟨d, B, r⟩) (parseLookup1At (B' + r) ⟨d', B', r⟩)
  exact shiftsRel_parseLookup1At (B + r) (B' + r) d B d' B' r h

/-! ## Dispatch and directory lemmas -/

theorem subtableParse_one (fuel : Nat) : subtableParse fuel 1 = parseLookup1 := by
  cases fuel <;> rfl

/-- Dispatching a lookup type outside 1..8 invokes an unset slot of the
dispatch array: the JavaScript type error, at every fuel. -/
theorem subtableParse_unknown (fuel : Nat) {t : Nat}
    (h1 : t ≠ 1) (h2 : t ≠ 2) (h3 : t ≠ 3) (h4 : t ≠ 4) (h5 : t ≠ 5)
    (h6 : t ≠ 6) (h7 : t ≠ 7) (h8 : t ≠ 8) :
    subtableParse fuel t = PM.fail .typeError := by
  have hcore : ∀ slot7, subtableParseCore slot7 t = PM.fail .typeError := by
    intro slot7
    unfold subtableParseCore
    rw [if_neg h1, if_neg h2, if_neg h3, if_neg h4, if_neg h5, if_neg h6,
      if_neg h7, if_neg h8]
  cases fuel with
  | zero => exact hcore _
  | succ f => exact hcore _

/-- Running a type 7 subtable whose header reads succeed: the decode is
the dispatch of the true type on a fresh parser at `offset + storedOffset`,
wrapped with the type tag, the outer cursor parked after the 32-bit
offset. -/
theorem parseLookup7_run {dispatch : Nat → PM Subtable} {d : List Nat}
    {off rel t L : Nat}
    (h1 : u16At d (off + rel) = some 1)
    (h2 : u16At d (off + rel + 2) = some t)
    (h3 : u32At d (off + rel + 4) = some L) :
    parseLookup7 dispatch ⟨d, off, rel⟩ =
      (match dispatch t ⟨d, off + L, 0⟩ with
       | .ok v _ => .ok (Subtable.lk7 t v) ⟨d, off, rel + 8⟩
       | .err e => .err e
       | .diverge => .diverge) := by
  unfold parseLookup7
  have hu1 : parseUShort ⟨d, off, rel⟩ = .ok 1 ⟨d, off, rel + 2⟩ :=
    parseUShort_ok h1
  have hu2 : parseUShort ⟨d, off, rel + 2⟩ = .ok t ⟨d, off, rel + 2 + 2⟩ :=
    parseUShort_ok (by rw [← Nat.add_assoc]; exact h2)
  have h44 : (⟨d, off, rel + 2 + 2⟩ : PState) = ⟨d, off, rel + 4⟩ := by
    have h24 : rel + 2 + 2 = rel + 4 := by omega
    rw [h24]
  have hu3 : parseULong ⟨d, off, rel + 4⟩ = .ok L ⟨d, off, rel + 4 + 4⟩ :=
    parseULong_ok (by rw [← Nat.add_assoc]; exact h3)
  have h88 : (⟨d, off, rel + 4 + 4⟩ : PState) = ⟨d, off, rel + 8⟩ := by
    have h48 : rel + 4 + 4 = rel + 8 := by omega
    rw [h48]
  simp only [hu1, eq_self_iff_true, if_true, hu2, h44, hu3, h88]

/-- A failing dispatch inside a type 7 extension propagates unchanged. -/
theorem parseLookup7_propagates {dispatch : Nat → PM Subtable} {d : List Nat}
    {off rel t L : Nat} {e : PErr}
    (h1 : u16At d (off + rel) = some 1)
    (h2 : u16At d (off + rel + 2) = some t)
    (h3 : u32At d (off + rel + 4) = some L)
    (hd : dispatch t ⟨d, off + L, 0⟩ = .err e) :
    parseLookup7 dispatch ⟨d, off, rel⟩ = .err e := by
  rw [parseLookup7_run h1 h2 h3, hd]

/-- A lookup directory entry naming a type outside 1..8 is the structured
UnknownLookupType failure of the (spec-modelled) directory decoder. -/
theorem parseLookupEntry_unknown {fuel : Nat} {st : PState} {t : Nat}
    (hu : u16At st.data (st.off + st.rel) = some t)
    (ht : ¬ (1 ≤ t ∧ t ≤ 8)) :
    parseLookupEntry fuel st = .err (.unknownLookupType t) := by
  unfold parseLookupEntry
  rw [run_bind]
  simp only [parseUShort_ok hu, if_neg ht, run_fail]

/-- A lookup directory entry naming a type in 1..8 runs the dispatch at
the cursor parked after the type field. -/
theorem parseLookupEntry_run {fuel : Nat} {st : PState} {t : Nat}
    (hu : u16At st.data (st.off + st.rel) = some t)
    (ht : 1 ≤ t ∧ t ≤ 8) :
    parseLookupEntry fuel st =
      (match subtableParse fuel t ⟨st.data, st.off, st.rel + 2⟩ with
       | .ok s st1 => .ok (LookupEntry.mk t s) st1
       | .err e => .err e
       | .diverge => .diverge) := by
  unfold parseLookupEntry
  rw [run_bind]
  simp only [parseUShort_ok hu, if_pos ht, run_bind]
  cases subtableParse fuel t ⟨st.data, st.off, st.rel + 2⟩ <;> simp

/-- A successful lookup directory walk decodes one entry per offset. -/
theorem lookupLoop_ok_length {fuel dS : Nat} :
    ∀ {os : List Nat} {st st' : PState} {es : List LookupEntry},
      lookupLoop fuel dS os st = .ok es st' → es.length = os.length := by
  intro os
  induction os with
  | nil =>
      intro st st' es h
      cases h
      rfl
  | cons o os ih =>
      intro st st' es h
      unfold lookupLoop at h
      split at h
      case h_1 entry st1 heq =>
        split at h
        case h_1 es2 st2 heq2 =>
          cases h
          simp [ih heq2]
        case h_2 => cases h
        case h_3 => cases h
      case h_2 => cases h
      case h_3 => cases h

/-- A failing entry anywhere in the lookup directory aborts the whole
walk with the error of that entry, provided the earlier entries decoded. -/
theorem lookupLoop_err {fuel dS : Nat} {e : PErr} :
    ∀ (os1 : List Nat) {o : Nat} {os2 : List Nat} (st : PState),
      (∀ o' ∈ os1, ∃ v st'', parseLookupEntry fuel ⟨st.data, dS + o', 0⟩ = .ok v st'') →
      parseLookupEntry fuel ⟨st.data, dS + o, 0⟩ = .err e →
      lookupLoop fuel dS (os1 ++ o :: os2) st = .err e := by
  intro os1
  induction os1 with
  | nil =>
      intro o os2 st hok herr
      rw [List.nil_append]
      unfold lookupLoop
      rw [herr]
  | cons o1 os1 ih =>
      intro o os2 st hok herr
      rw [List.cons_append]
      unfold lookupLoop
      obtain ⟨v, st'', hv⟩ := hok o1 (List.mem_cons_self o1 os1)
      simp only [hv,
        ih st (fun o' ho' => hok o' (List.mem_cons_of_mem _ ho')) herr]

/-- Running the lookup directory decoder once the count and offsets have
been read. -/
theorem parseLookupList_run {fuel : Nat} {st st1 : PState} {offsets : List Nat}
    (h : parseUShortListAuto st = .ok offsets st1) :
    parseLookupList fuel st = lookupLoop fuel (st.off + st.rel) offsets st1 := by
  unfold parseLookupList
  rw [h]

/-- An error from the lookup directory propagates to the top-level decode
unchanged, once the version check and the external directory decoders have
passed. -/
theorem parseGsubTable_err {σ φ : Type} {sR : PM σ} {fR : PM φ}
    {fuel : Nat} {d : List Nat} {s w : Nat} {st1 st2 st3 : PState}
    {sv : σ} {fv : φ} {e : PErr}
    (hv : parseVersion ⟨d, s, 0⟩ = .ok w st1)
    (hw : w = supportedVersionWire)
    (hs : sR st1 = .ok sv st2) (hf : fR st2 = .ok fv st3)
    (hl : parseLookupList fuel st3 = .err e) :
    parseGsubTable sR fR fuel d s = .err e := by
  unfold parseGsubTable
  rw [run_bind]
  simp only [hv, run_bind, checkArgument_true (beq_iff_eq.mpr hw) _ _,
    hs, hf, hl]

/-- A fully successful pipeline produces the assembled table. -/
theorem parseGsubTable_ok {σ φ : Type} {sR : PM σ} {fR : PM φ}
    {fuel : Nat} {d : List Nat} {s w : Nat} {st1 st2 st3 st4 : PState}
    {sv : σ} {fv : φ} {lks : List LookupEntry}
    (hv : parseVersion ⟨d, s, 0⟩ = .ok w st1)
    (hw : w = supportedVersionWire)
    (hs : sR st1 = .ok sv st2) (hf : fR st2 = .ok fv st3)
    (hl : parseLookupList fuel st3 = .ok lks st4) :
    parseGsubTable sR fR fuel d s = .ok (GsubTable.mk w sv fv lks) st4 := by
  unfold parseGsubTable
  rw [run_bind]
  simp only [hv, run_bind, checkArgument_true (beq_iff_eq.mpr hw) _ _,
    hs, hf, hl, run_pure']

/-- Reading `n` 16-bit values over a stretch of zero bytes yields `n`
zeros. -/
theorem parseItems_zeros {d : List Nat} {off : Nat} :
    ∀ (n rel : Nat), (∀ j, j < 2 * n → d.get? (off + rel + j) = some 0) →
      parseItems parseUShort n ⟨d, off, rel⟩ =
        .ok (List.replicate n 0) ⟨d, off, rel + 2 * n⟩ := by
  intro n
  induction n with
  | zero =>
      intro rel h
      simp [parseItems, PM.pure]
  | succ n ih =>
      intro rel h
      have hb0 : d.get? (off + rel) = some 0 := by
        have := h 0 (by omega)
        simpa using this
      have hb1 : d.get? (off + rel + 1) = some 0 := h 1 (by omega)
      have hu : u16At d (off + rel) = some 0 := by
        unfold u16At
        rw [hb0, hb1]
      have hus : parseUShort ⟨d, off, rel⟩ = .ok 0 ⟨d, off, rel + 2⟩ :=
        parseUShort_ok hu
      have hrest : parseItems parseUShort n ⟨d, off, rel + 2⟩ =
          .ok (List.replicate n 0) ⟨d, off, rel + 2 + 2 * n⟩ := by
        apply ih
        intro j hj
        have := h (2 + j) (by omega)
        have hidx : off + rel + (2 + j) = off + (rel + 2) + j := by omega
        rw [hidx] at this
        exact this
      rw [parseItems_succ, run_bind]
      simp only [hus, run_bind, hrest, run_pure']
      have hst : rel + 2 + 2 * n = rel + 2 * (n + 1) := by omega
      rw [hst, List.replicate_succ]

/-! ## Claim theorems -/

/-- Discriminates the structured UnknownLookupType failure from every
other outcome. -/
def errIsUnknownLookupType : PRes α → Bool
  | .err (.unknownLookupType _) => true
  | _ => false

/-- Claim C1, counterexample: a GSUB table whose single lookup is a type 7
extension naming true lookup type 9 (bytes 16..17) fails — but with the
JavaScript type error of calling the unset dispatch slot
(`subtableParsers[9].call`), not with a structured UnknownLookupType parse
error. -/
theorem C1_counterexample :
    parseGsubTable scriptsStub featuresStub 3
        [0, 1, 0, 0, 0, 1, 0, 8, 0, 0, 0, 0, 0, 7, 0, 1, 0, 9, 0, 0, 0, 0] 0 =
      .err .typeError ∧
    errIsUnknownLookupType (parseGsubTable scriptsStub featuresStub 3
        [0, 1, 0, 0, 0, 1, 0, 8, 0, 0, 0, 0, 0, 7, 0, 1, 0, 9, 0, 0, 0, 0] 0) =
      false := ⟨rfl, rfl⟩

/-- Claim C1, amended: a lookup directory entry naming a type outside 1..8
fails with the structured UnknownLookupType error of the (spec-modelled)
directory decoder; a type 7 extension whose true lookup type is outside
1..8 also fails fatally, but with the unstructured runtime type error of
invoking a missing dispatch entry, not with UnknownLookupType. -/
theorem C1_theorem :
    (∀ (fuel : Nat) (st : PState) (t : Nat),
      u16At st.data (st.off + st.rel) = some t → ¬ (1 ≤ t ∧ t ≤ 8) →
      parseLookupEntry fuel st = .err (.unknownLookupType t)) ∧
    (∀ (fuel : Nat) (d : List Nat) (off rel t L : Nat),
      u16At d (off + rel) = some 1 → u16At d (off + rel + 2) = some t →
      u32At d (off + rel + 4) = some L → ¬ (1 ≤ t ∧ t ≤ 8) →
      subtableParse (fuel + 1) 7 ⟨d, off, rel⟩ = .err .typeError) := by
  constructor
  · intro fuel st t hu ht
    exact parseLookupEntry_unknown hu ht
  · intro fuel d off rel t L h1 h2 h3 ht
    show parseLookup7 (subtableParse fuel) ⟨d, off, rel⟩ = .err .typeError
    refine parseLookup7_propagates h1 h2 h3 ?_
    rw [subtableParse_unknown fuel (by omega) (by omega) (by omega) (by omega)
      (by omega) (by omega) (by omega) (by omega)]
    rfl

/-- Claim C1, witness: both halves at concrete inputs — a directory entry
of type 9, and a type 7 subtable indirecting to type 9. -/
theorem C1_witness :
    parseLookupEntry 1 ⟨[0, 9], 0, 0⟩ = .err (.unknownLookupType 9) ∧
    subtableParse 1 7 ⟨[0, 1, 0, 9, 0, 0, 0, 0], 0, 0⟩ = .err .typeError :=
  ⟨C1_theorem.1 1 ⟨[0, 9], 0, 0⟩ 9 (by decide) (by decide),
   C1_theorem.2 0 [0, 1, 0, 9, 0, 0, 0, 0] 0 0 9 0 (by decide) (by decide)
     (by decide) (by decide)⟩

/-- Claim C2, counterexample: two type 2 subtables whose invalid format
discriminants sit at different byte offsets (0 and 4) fail with the
identical error value, so the error cannot identify the byte offset at
which the discriminant was read. -/
theorem C2_counterexample :
    parseLookup2 ⟨[0, 0], 0, 0⟩ = .err (.assertFail
      "GSUB Multiple Substitution Subtable identifier-format must be 1") ∧
    parseLookup2 ⟨[9, 9, 9, 9, 0, 0], 2, 2⟩ = .err (.assertFail
      "GSUB Multiple Substitution Subtable identifier-format must be 1") :=
  ⟨rfl, rfl⟩

/-- Claim C2, amended: on an unsupported format discriminant, the decoders
for types 1, 5 and 6 throw a message carrying the hex byte offset of the
discriminant together with the accepted value set, while the decoders for
types 2, 3, 4, 7 and 8 throw a fixed message naming the structure and the
accepted value but no byte offset. -/
theorem C2_theorem :
    (∀ (d : List Nat) (off rel v : Nat),
      u16At d (off + rel) = some v → v ≠ 1 → v ≠ 2 →
      parseLookup1 ⟨d, off, rel⟩ = .err (.assertFail
        ("0x" ++ natToHex (off + rel) ++ ": lookup type 1 format must be 1 or 2."))) ∧
    (∀ (d : List Nat) (off rel v : Nat),
      u16At d (off + rel) = some v → v ≠ 1 → v ≠ 2 → v ≠ 3 →
      parseLookup5 ⟨d, off, rel⟩ = .err (.assertFail
        ("0x" ++ natToHex (off + rel) ++ ": lookup type 5 format must be 1, 2 or 3."))) ∧
    (∀ (d : List Nat) (off rel v : Nat),
      u16At d (off + rel) = some v → v ≠ 1 → v ≠ 2 → v ≠ 3 →
      parseLookup6 ⟨d, off, rel⟩ = .err (.assertFail
        ("0x" ++ natToHex (off + rel) ++ ": lookup type 6 format must be 1, 2 or 3."))) ∧
    (∀ (d : List Nat) (off rel v : Nat),
      u16At d (off + rel) = some v → v ≠ 1 →
      parseLookup2 ⟨d, off, rel⟩ = .err (.assertFail
        "GSUB Multiple Substitution Subtable identifier-format must be 1")) ∧
    (∀ (d : List Nat) (off rel v : Nat),
      u16At d (off + rel) = some v → v ≠ 1 →
      parseLookup3 ⟨d, off, rel⟩ = .err (.assertFail
        "GSUB Alternate Substitution Subtable identifier-format must be 1")) ∧
    (∀ (d : List Nat) (off rel v : Nat),
      u16At d (off + rel) = some v → v ≠ 1 →
      parseLookup4 ⟨d, off, rel⟩ = .err (.assertFail
        "GSUB ligature table identifier-format must be 1")) ∧
    (∀ (dispatch : Nat → PM Subtable) (d : List Nat) (off rel v : Nat),
      u16At d (off + rel) = some v → v ≠ 1 →
      parseLookup7 dispatch ⟨d, off, rel⟩ = .err (.assertFail
        "GSUB Extension Substitution subtable identifier-format must be 1")) ∧
    (∀ (d : List Nat) (off rel v : Nat),
      u16At d (off + rel) = some v → v ≠ 1 →
      parseLookup8 ⟨d, off, rel⟩ = .err (.assertFail
        "GSUB Reverse Chaining Contextual Single Substitution Subtable identifier-format must be 1")) :=
  ⟨fun _ _ _ _ h h1 h2 => lk1_badFormat h h1 h2,
   fun _ _ _ _ h h1 h2 h3 => lk5_badFormat h h1 h2 h3,
   fun _ _ _ _ h h1 h2 h3 => lk6_badFormat h h1 h2 h3,
   fun _ _ _ _ h h1 => lk2_badFormat h h1,
   fun _ _ _ _ h h1 => lk3_badFormat h h1,
   fun _ _ _ _ h h1 => lk4_badFormat h h1,
   fun _ _ _ _ _ h h1 => lk7_badFormat h h1,
   fun _ _ _ _ h h1 => lk8_badFormat h h1⟩

/-- Claim C2, witness: each of the eight decoders at a concrete invalid
discriminant; the discriminant of the type 5 instance sits at byte 4 and
its message renders that offset. -/
theorem C2_witness :
    parseLookup1 ⟨[0, 3], 0, 0⟩ =
      .err (.assertFail "0x0: lookup type 1 format must be 1 or 2.") ∧
    parseLookup5 ⟨[9, 9, 9, 9, 0, 4], 2, 2⟩ =
      .err (.assertFail "0x4: lookup type 5 format must be 1, 2 or 3.") ∧
    parseLookup6 ⟨[0, 4], 0, 0⟩ =
      .err (.assertFail "0x0: lookup type 6 format must be 1, 2 or 3.") ∧
    parseLookup2 ⟨[0, 0], 0, 0⟩ = .err (.assertFail
      "GSUB Multiple Substitution Subtable identifier-format must be 1") ∧
    parseLookup3 ⟨[0, 0], 0, 0⟩ = .err (.assertFail
      "GSUB Alternate Substitution Subtable identifier-format must be 1") ∧
    parseLookup4 ⟨[0, 0], 0, 0⟩ = .err (.assertFail
      "GSUB ligature table identifier-format must be 1") ∧
    parseLookup7 (subtableParse 1) ⟨[0, 0], 0, 0⟩ = .err (.assertFail
      "GSUB Extension Substitution subtable identifier-format must be 1") ∧
    parseLookup8 ⟨[0, 0], 0, 0⟩ = .err (.assertFail
      "GSUB Reverse Chaining Contextual Single Substitution Subtable identifier-format must be 1") :=
  ⟨C2_theorem.1 [0, 3] 0 0 3 (by decide) (by decide) (by decide),
   C2_theorem.2.1 [9, 9, 9, 9, 0, 4] 2 2 4 (by decide) (by decide) (by decide) (by decide),
   C2_theorem.2.2.1 [0, 4] 0 0 4 (by decide) (by decide) (by decide) (by decide),
   C2_theorem.2.2.2.1 [0, 0] 0 0 0 (by decide) (by decide),
   C2_theorem.2.2.2.2.1 [0, 0] 0 0 0 (by decide) (by decide),
   C2_theorem.2.2.2.2.2.1 [0, 0] 0 0 0 (by decide) (by decide),
   C2_theorem.2.2.2.2.2.2.1 (subtableParse 1) [0, 0] 0 0 0 (by decide) (by decide),
   C2_theorem.2.2.2.2.2.2.2 [0, 0] 0 0 0 (by decide) (by decide)⟩

/-- Claim C3, counterexample: the decode of `loopData` — a table whose
type 7 extension subtable indirects to itself with a stored 32-bit offset
of 0 — never terminates: the dispatch re-entry repeats on an identical
cursor state at every depth. -/
theorem C3_counterexample : ¬ GsubTerminates loopData 0 := by
  intro h
  obtain ⟨f, hf⟩ := h
  exact hf (loopData_top f)

/-- Claim C3, amended: decoding any lookup type other than 7 always
terminates, and a type 7 extension whose true type is not 7 terminates;
termination can only fail through a chain of type 7 extensions indirecting
to type 7 again, and an input whose extension chain is cyclic makes the
decode non-terminating. -/
theorem C3_theorem :
    (∀ (fuel t : Nat) (st : PState), t ≠ 7 →
      subtableParse fuel t st ≠ .diverge) ∧
    (∀ (fuel : Nat) (st : PState), 1 ≤ fuel →
      (∀ t', extTypeAt st = some t' → t' ≠ 7) →
      subtableParse fuel 7 st ≠ .diverge) := by
  constructor
  · intro fuel t st ht
    exact noDiv_subtableParse_ne7 fuel t ht st
  · intro fuel st hfuel hne
    cases fuel with
    | zero => omega
    | succ f => exact noDiv_subtableParse7 f st hne

/-- Claim C3, witness: a type 1 dispatch and a type 7 extension wrapping
type 1 at concrete inputs. -/
theorem C3_witness :
    subtableParse 0 1 ⟨[], 0, 0⟩ ≠ .diverge ∧
    subtableParse 1 7 ⟨[0, 1, 0, 1, 0, 0, 0, 8, 0, 1, 0, 0, 0, 5], 0, 0⟩ ≠ .diverge :=
  ⟨C3_theorem.1 0 1 ⟨[], 0, 0⟩ (by decide),
   C3_theorem.2 1 ⟨[0, 1, 0, 1, 0, 0, 0, 8, 0, 1, 0, 0, 0, 5], 0, 0⟩ (by decide)
     (fun t' h => by
        have : t' = 1 := by
          have hh : extTypeAt ⟨[0, 1, 0, 1, 0, 0, 0, 8, 0, 1, 0, 0, 0, 5], 0, 0⟩ = some 1 := rfl
          rw [hh] at h
          cases h
          rfl
        omega)⟩

/-- Claim C4: decoding a type 7 extension whose true type is 1, over any
buffer whose bytes from the resolved 32-bit-relative offset are
byte-identical to a standalone type 1 subtable, produces exactly the
standalone decode result in the `extension` field; only the wrapping
record (tag `lookupType = 1`, `substFormat = 1`) is added, and the outer
cursor parks after the 8-byte extension header. -/
theorem C4_theorem :
    ∀ (fuel : Nat) (d : List Nat) (off rel L : Nat) (d' : List Nat)
      (off' : Nat) (v : Subtable) (stv : PState),
      u16At d (off + rel) = some 1 →
      u16At d (off + rel + 2) = some 1 →
      u32At d (off + rel + 4) = some L →
      SameFrom d (off + L) d' off' →
      parseLookup1 ⟨d', off', 0⟩ = .ok v stv →
      subtableParse (fuel + 1) 7 ⟨d, off, rel⟩ =
        .ok (Subtable.lk7 1 v) ⟨d, off, rel + 8⟩ := by
  intro fuel d off rel L d' off' v stv h1 h2 h3 hsame hstand
  have hrel := shifts_parseLookup1 d (off + L) d' off' 0 hsame
  rw [hstand] at hrel
  cases hin : parseLookup1 ⟨d, off + L, 0⟩ with
  | ok v0 st0 =>
      rw [hin] at hrel
      obtain ⟨rfl, -⟩ := hrel
      show parseLookup7 (subtableParse fuel) ⟨d, off, rel⟩ = _
      rw [parseLookup7_run h1 h2 h3, subtableParse_one fuel, hin]
  | err e => rw [hin] at hrel; exact absurd hrel (by simp [RelRes])
  | diverge => rw [hin] at hrel; exact absurd hrel (by simp [RelRes])

/-- Claim C4, witness: an extension wrapping a standalone type 1 format 1
subtable located at the resolved offset of the same buffer (byte-identical
by reflexivity). -/
theorem C4_witness :
    parseLookup1 ⟨[0, 1, 0, 1, 0, 0, 0, 8, 0, 1, 0, 0, 0, 5], 8, 0⟩ =
      .ok (Subtable.lk1f1 none 5) ⟨[0, 1, 0, 1, 0, 0, 0, 8, 0, 1, 0, 0, 0, 5], 8, 6⟩ ∧
    subtableParse 1 7 ⟨[0, 1, 0, 1, 0, 0, 0, 8, 0, 1, 0, 0, 0, 5], 0, 0⟩ =
      .ok (Subtable.lk7 1 (Subtable.lk1f1 none 5))
        ⟨[0, 1, 0, 1, 0, 0, 0, 8, 0, 1, 0, 0, 0, 5], 0, 8⟩ :=
  ⟨rfl,
   C4_theorem 0 [0, 1, 0, 1, 0, 0, 0, 8, 0, 1, 0, 0, 0, 5] 0 0 8
     [0, 1, 0, 1, 0, 0, 0, 8, 0, 1, 0, 0, 0, 5] 8 (Subtable.lk1f1 none 5)
     ⟨[0, 1, 0, 1, 0, 0, 0, 8, 0, 1, 0, 0, 0, 5], 8, 6⟩
     (by decide) (by decide) (by decide) (fun k => rfl) rfl⟩

/-- Claim C5: a type 5 or type 6 subtable whose format discriminant is
outside the supported set (in particular 4) fails with the unsupported
subformat error whose message renders the hex byte offset at which the
discriminant was read; the result is an error, not a Lookup value. -/
theorem C5_theorem :
    ∀ (d : List Nat) (off rel v : Nat),
      u16At d (off + rel) = some v → v ≠ 1 → v ≠ 2 → v ≠ 3 →
      parseLookup5 ⟨d, off, rel⟩ = .err (.assertFail
        ("0x" ++ natToHex (off + rel) ++ ": lookup type 5 format must be 1, 2 or 3.")) ∧
      parseLookup6 ⟨d, off, rel⟩ = .err (.assertFail
        ("0x" ++ natToHex (off + rel) ++ ": lookup type 6 format must be 1, 2 or 3.")) :=
  fun _ _ _ _ h h1 h2 h3 =>
    ⟨lk5_badFormat h h1 h2 h3, lk6_badFormat h h1 h2 h3⟩

/-- Claim C5, witness: discriminant 4 read at byte offset 2, rendered as
`0x2` in both messages. -/
theorem C5_witness :
    parseLookup5 ⟨[9, 9, 0, 4], 0, 2⟩ =
      .err (.assertFail "0x2: lookup type 5 format must be 1, 2 or 3.") ∧
    parseLookup6 ⟨[9, 9, 0, 4], 0, 2⟩ =
      .err (.assertFail "0x2: lookup type 6 format must be 1, 2 or 3.") :=
  C5_theorem [9, 9, 0, 4] 0 2 4 (by decide) (by decide) (by decide) (by decide)

/-- Claim C6: a ligature rule declaring glyph count `g ≥ 1` reads the
ligature glyph, the count, and then exactly `g - 1` trailing component
glyph ids — the decoded components list has length `g - 1` and the cursor
advances by exactly `2 * (g - 1)` bytes over the components.  This rule
decoder is the callback `parseLookup4` runs for every rule of every
ligature set. -/
theorem C6_theorem :
    ∀ (d : List Nat) (off rel lig g : Nat) (comps : List Nat) (stI : PState),
      u16At d (off + rel) = some lig →
      u16At d (off + rel + 2) = some g →
      1 ≤ g →
      parseUShortListN ((g : Int) - 1) ⟨d, off, rel + 4⟩ = .ok comps stI →
      parseLigatureRule ⟨d, off, rel⟩ =
        .ok ⟨lig, comps⟩ ⟨d, off, rel + 4 + 2 * (g - 1)⟩ ∧
      comps.length = g - 1 :=
  fun _ _ _ _ _ _ _ hlig hg hone hcomps =>
    parseLigatureRule_ok hlig hg hone hcomps

/-- Claim C6, witness: a rule with `glyphCount = 3` reads exactly the two
component glyphs 9 and 10 and ends six bytes past the rule start. -/
theorem C6_witness :
    parseLigatureRule ⟨[0, 5, 0, 3, 0, 9, 0, 10], 0, 0⟩ =
      .ok ⟨5, [9, 10]⟩ ⟨[0, 5, 0, 3, 0, 9, 0, 10], 0, 8⟩ ∧
    ([9, 10] : List Nat).length = 3 - 1 :=
  C6_theorem [0, 5, 0, 3, 0, 9, 0, 10] 0 0 5 3 [9, 10]
    ⟨[0, 5, 0, 3, 0, 9, 0, 10], 0, 8⟩
    (by decide) (by decide) (by decide) (by decide)

/-- Claim C7: whenever the version word differs from the one supported
constant, the decode fails with the fixed unsupported-version message —
for every externally supplied script and feature decoder (so neither is
ever consulted), every fuel, and whatever bytes follow the version
field. -/
theorem C7_theorem :
    ∀ (σ φ : Type) (sR : PM σ) (fR : PM φ) (fuel : Nat) (d : List Nat)
      (s w : Nat),
      u32At d s = some w → w ≠ supportedVersionWire →
      parseGsubTable sR fR fuel d s =
        .err (.assertFail "Unsupported GSUB table version.") :=
  fun _ _ sR fR fuel _ _ _ h hne => gsub_badVersion sR fR fuel h hne

/-- Claim C7, witness: version word `0x00020000` with script and feature
decoders that would throw if consulted — the decode still reports only the
version failure. -/
theorem C7_witness :
    parseGsubTable (PM.fail .truncated : PM Unit) (PM.fail .truncated : PM Unit)
        3 [0, 2, 0, 0] 0 =
      .err (.assertFail "Unsupported GSUB table version.") :=
  C7_theorem Unit Unit _ _ 3 [0, 2, 0, 0] 0 131072 (by decide) (by decide)

/-- Claim C8, counterexample: on the self-referential extension input the
top-level decode neither returns a table nor fails with an error at any
depth bound — it does not terminate. -/
theorem C8_counterexample : ¬ GsubReturns loopData 0 ∧ ¬ GsubFails loopData 0 := by
  constructor
  · intro h
    obtain ⟨f, t, st', hf⟩ := h
    rw [loopData_top f] at hf
    cases hf
  · intro h
    obtain ⟨f, e, hf⟩ := h
    rw [loopData_top f] at hf
    cases hf

/-- Claim C8, amended: whenever the decode terminates it is all-or-
nothing — a type 7 re-entry propagates an inner error unchanged, a failing
directory entry aborts the whole directory walk with that error, a failing
lookup directory aborts the top-level decode with that error, and a
successful decode materializes exactly one lookup per directory entry; on
a cyclically self-indirecting type 7 input the decode does not terminate
at all. -/
theorem C8_theorem :
    (∀ (dispatch : Nat → PM Subtable) (d : List Nat) (off rel t L : Nat)
       (e : PErr),
      u16At d (off + rel) = some 1 →
      u16At d (off + rel + 2) = some t →
      u32At d (off + rel + 4) = some L →
      dispatch t ⟨d, off + L, 0⟩ = .err e →
      parseLookup7 dispatch ⟨d, off, rel⟩ = .err e) ∧
    (∀ (fuel dS : Nat) (os1 : List Nat) (o : Nat) (os2 : List Nat)
       (st : PState) (e : PErr),
      (∀ o' ∈ os1, ∃ v st'',
        parseLookupEntry fuel ⟨st.data, dS + o', 0⟩ = .ok v st'') →
      parseLookupEntry fuel ⟨st.data, dS + o, 0⟩ = .err e →
      lookupLoop fuel dS (os1 ++ o :: os2) st = .err e) ∧
    (∀ (σ φ : Type) (sR : PM σ) (fR : PM φ) (fuel : Nat) (d : List Nat)
       (s w : Nat) (st1 st2 st3 : PState) (sv : σ) (fv : φ) (e : PErr),
      parseVersion ⟨d, s, 0⟩ = .ok w st1 → w = supportedVersionWire →
      sR st1 = .ok sv st2 → fR st2 = .ok fv st3 →
      parseLookupList fuel st3 = .err e →
      parseGsubTable sR fR fuel d s = .err e) ∧
    (∀ (fuel dS : Nat) (os : List Nat) (st st' : PState)
       (es : List LookupEntry),
      lookupLoop fuel dS os st = .ok es st' → es.length = os.length) := by
  refine ⟨?_, ?_, ?_, ?_⟩
  · intro dispatch d off rel t L e h1 h2 h3 hd
    exact parseLookup7_propagates h1 h2 h3 hd
  · intro fuel dS os1 o os2 st e hok herr
    exact lookupLoop_err os1 st hok herr
  · intro σ φ sR fR fuel d s w st1 st2 st3 sv fv e hv hw hs hf hl
    exact parseGsubTable_err hv hw hs hf hl
  · intro fuel dS os st st' es h
    exact lookupLoop_ok_length h

/-- Claim C8, witness: the four components at concrete inputs — a type 7
re-entry surfacing the inner type 2 format error verbatim, an unknown-type
directory entry aborting the walk, a truncated lookup directory aborting
the top-level decode, and a one-entry directory decoding to exactly one
lookup. -/
theorem C8_witness :
    parseLookup7 (subtableParse 1) ⟨[0, 1, 0, 2, 0, 0, 0, 8, 0, 0], 0, 0⟩ =
      .err (.assertFail
        "GSUB Multiple Substitution Subtable identifier-format must be 1") ∧
    lookupLoop 1 0 [0] ⟨[0, 9], 0, 0⟩ = .err (.unknownLookupType 9) ∧
    parseGsubTable scriptsStub featuresStub 1 [0, 1, 0, 0] 0 = .err .truncated ∧
    ([LookupEntry.mk 1 (Subtable.lk1f1 none 9)]).length = ([0] : List Nat).length :=
  ⟨C8_theorem.1 (subtableParse 1) [0, 1, 0, 2, 0, 0, 0, 8, 0, 0] 0 0 2 8 _
     (by decide) (by decide) (by decide) (by decide),
   C8_theorem.2.1 1 0 [] 0 [] ⟨[0, 9], 0, 0⟩ _
     (fun o' ho' => absurd ho' (List.not_mem_nil o')) (by decide),
   C8_theorem.2.2.1 Unit Unit scriptsStub featuresStub 1 [0, 1, 0, 0] 0 65536
     ⟨[0, 1, 0, 0], 0, 4⟩ ⟨[0, 1, 0, 0], 0, 4⟩ ⟨[0, 1, 0, 0], 0, 4⟩ () () .truncated
     (by decide) (by decide) (by decide) (by decide) (by decide),
   C8_theorem.2.2.2 1 0 [0] ⟨[0, 1, 0, 1, 0, 0, 0, 9], 0, 0⟩
     ⟨[0, 1, 0, 1, 0, 0, 0, 9], 0, 0⟩ [LookupEntry.mk 1 (Subtable.lk1f1 none 9)]
     (by decide)⟩

/-- The buffer of the C9 witness: a type 5 rule whose glyph count word is
`0x8000`, a zero subst count, and 65534 zero bytes carrying the 32767
input glyphs the unsigned read demands. -/
def c9data : List Nat := [128, 0, 0, 0] ++ List.replicate 65534 0

theorem c9data_input :
    parseUShortListN ((32768 : Int) - 1) ⟨c9data, 0, 4⟩ =
      .ok (List.replicate 32767 0) ⟨c9data, 0, 65538⟩ := by
  unfold parseUShortListN
  rw [if_neg (by norm_num)]
  have ht : ((32768 : Int) - 1).toNat = 32767 := by decide
  rw [ht]
  have hz : ∀ j, j < 2 * 32767 → c9data.get? (0 + 4 + j) = some 0 := by
    intro j hj
    have h4 : 0 + 4 + j = 4 + j := by omega
    rw [h4]
    show ([128, 0, 0, 0] ++ List.replicate 65534 0 : List Nat).get? (4 + j) = some 0
    have hlen : ([128, 0, 0, 0] : List Nat).length ≤ 4 + j := by simp
    rw [List.get?_eq_getElem?, List.getElem?_append_right hlen]
    have hidx : 4 + j - ([128, 0, 0, 0] : List Nat).length = j := by simp
    rw [hidx, List.getElem?_replicate, if_pos (by omega)]
  have hrun := @parseItems_zeros c9data 0 32767 4 hz
  rw [hrun]

/-- Claim C9: in a type 6 chain rule the input count is read signed, so a
count word `v ≥ 0x8000` becomes `v - 2^16` and the input-list read is
handed the negative length `(v - 2^16) - 1`, failing with the range error
— whereas a type 5 rule reads the same word unsigned and hands the
input-list read the length `v - 1`, decoding exactly `v - 1` input
glyphs. -/
theorem C9_theorem :
    (∀ (st st1 : PState) (bt : List Nat) (v : Nat),
      parseUShortListAuto st = .ok bt st1 →
      u16At st1.data (st1.off + st1.rel) = some v →
      32768 ≤ v → v < 65536 →
      parseShort st1 = .ok ((v : Int) - 65536) ⟨st1.data, st1.off, st1.rel + 2⟩ ∧
      ((v : Int) - 65536) - 1 < 0 ∧
      parseChainRule st = .err .rangeError) ∧
    (∀ (d : List Nat) (off rel v sc : Nat) (input : List Nat)
       (recs : List LookupRecord) (stI stR : PState),
      u16At d (off + rel) = some v → 32768 ≤ v →
      u16At d (off + rel + 2) = some sc →
      parseUShortListN ((v : Int) - 1) ⟨d, off, rel + 4⟩ = .ok input stI →
      parseLookupRecordListN sc stI = .ok recs stR →
      parseRule5 ⟨d, off, rel⟩ = .ok ⟨input, recs⟩ stR ∧
      input.length = v - 1) := by
  constructor
  · intro st st1 bt v hbt hv hhi hlt
    refine ⟨?_, by omega, parseChainRule_negCount hbt hv hhi hlt⟩
    have := parseShort_ok hv
    rw [if_neg (by omega)] at this
    exact this
  · intro d off rel v sc input recs stI stR hv hhi hsc hinput hrecs
    exact parseRule5_count hv (by omega) hsc hinput hrecs

/-- Claim C9, witness: the count word `0x8000` — a type 6 chain rule with
empty backtrack throws the range error, while a type 5 rule over the same
count word decodes 32767 input glyphs. -/
theorem C9_witness :
    (parseShort ⟨[0, 0, 128, 0], 0, 2⟩ =
      .ok ((32768 : Int) - 65536) ⟨[0, 0, 128, 0], 0, 2 + 2⟩ ∧
     ((32768 : Int) - 65536) - 1 < 0 ∧
     parseChainRule ⟨[0, 0, 128, 0], 0, 0⟩ = .err .rangeError) ∧
    (parseRule5 ⟨c9data, 0, 0⟩ =
      .ok ⟨List.replicate 32767 0, []⟩ ⟨c9data, 0, 65538⟩ ∧
     (List.replicate 32767 0).length = 32768 - 1) :=
  ⟨C9_theorem.1 ⟨[0, 0, 128, 0], 0, 0⟩ ⟨[0, 0, 128, 0], 0, 2⟩ [] 32768
     (by decide) (by decide) (by decide) (by decide),
   C9_theorem.2 c9data 0 0 32768 0 (List.replicate 32767 0) []
     ⟨c9data, 0, 65538⟩ ⟨c9data, 0, 65538⟩
     (by rfl) (by norm_num) (by rfl) c9data_input (by rfl)⟩

/-- Claim C10: the `deltaGlyphId` of a decoded type 1 format 1 subtable is
exactly the unsigned 16-bit wire word at the delta position — never
sign-extended — and over a buffer of genuine bytes it always lies in
`[0, 65535]`. -/
theorem C10_theorem :
    ∀ (d : List Nat) (off rel : Nat) (cov : Option Coverage) (dgi : Nat)
      (stF : PState),
      (∀ b ∈ d, b < 256) →
      parseLookup1 ⟨d, off, rel⟩ = .ok (.lk1f1 cov dgi) stF →
      u16At d (off + rel + 4) = some dgi ∧ dgi < 65536 :=
  fun _ _ _ _ _ _ hb h =>
    ⟨lk1f1_delta h, u16At_lt hb (lk1f1_delta h)⟩

/-- Claim C10, witness: a delta word with the high bit set (`0x9000`)
decodes to the plain unsigned value 36864. -/
theorem C10_witness :
    u16At [0, 1, 0, 0, 144, 0] (0 + 0 + 4) = some 36864 ∧ 36864 < 65536 :=
  C10_theorem [0, 1, 0, 0, 144, 0] 0 0 none 36864 ⟨[0, 1, 0, 0, 144, 0], 0, 6⟩
    (by decide) (by decide)

end OTGsub
